import Mathlib

/-!
Verification development for the Rono language toolchain
(lexer/parser, semantic analyzer, tree-walking interpreter, IR constant
folder).  Each Rust function referenced by the specification is embedded
shallowly as an executable Lean definition; theorems at the end settle the
specification claims against these definitions.

Modelling conventions, fixed once for the whole file:
* Rust `i64` is modelled as unbounded `Int`.  No claim exercises wrap-around
  or `i64::MIN` edge cases, so two's-complement reduction is not inserted.
* Rust `f64` is modelled as `Rat`.  Every float constant appearing in a claim
  (1.0, 2.0, 3.0, 0.0) is exactly representable in binary64 and the operations
  on them are exact, so rational arithmetic agrees with IEEE arithmetic on the
  inputs of every theorem below.  `f64::EPSILON` is 2⁻⁵².  (IEEE inf/NaN from
  float division by zero are not representable; no claim touches them.)
* Rust `HashMap<String, V>` is modelled as an association list with
  insert-replaces-existing-key semantics; lookup takes the first hit.
  Only the map semantics (get/insert) of HashMap is relied upon by the
  embedded code paths that the theorems exercise.
* Host panics (e.g. `%` with a zero divisor) are a distinguished outcome,
  separate from the interpreter's error values.
-/

namespace Rono

/-- Model of `f64` (see the header comment). -/
abbrev F64 := Rat

/-- `f64::EPSILON` (2⁻⁵²), used by the float equality comparisons in
`apply_binary_op`, `fold_constants` and `values_equal`. -/
def f64Epsilon : F64 := 1 / 2 ^ 52

/-- `types.rs`: `enum ChifType`. -/
inductive ChifType : Type where
  | Int : ChifType
  | Float : ChifType
  | Str : ChifType
  | Bool : ChifType
  | Nil : ChifType
  | Array : ChifType → List Nat → ChifType
  | List : ChifType → List Nat → ChifType
  | Map : ChifType → ChifType → ChifType
  | Struct : String → ChifType
  | Pointer : ChifType → ChifType
deriving Repr, DecidableEq

/-- `types.rs`: `enum ChifValue`.  `Map` and `Struct` carry their
`HashMap<String, ChifValue>` as an association list. -/
inductive ChifValue : Type where
  | Int : Int → ChifValue
  | Float : F64 → ChifValue
  | Str : String → ChifValue
  | Bool : Bool → ChifValue
  | Nil : ChifValue
  | Array : List ChifValue → ChifValue
  | List : List ChifValue → ChifValue
  | Map : List (String × ChifValue) → ChifValue
  | Struct : String → List (String × ChifValue) → ChifValue
  | Pointer : ChifValue → ChifValue
  | Reference : String → ChifValue

/-- `HashMap::get` on the association-list model. -/
def alGet {α : Type} (m : List (String × α)) (k : String) : Option α :=
  match m with
  | [] => none
  | (k2, v) :: rest => if k2 = k then some v else alGet rest k

/-- `HashMap::insert` on the association-list model: replace the existing
binding in place, or append a fresh one. -/
def alInsert {α : Type} (m : List (String × α)) (k : String) (v : α) :
    List (String × α) :=
  match m with
  | [] => [(k, v)]
  | (k2, v2) :: rest =>
      if k2 = k then (k2, v) :: rest else (k2, v2) :: alInsert rest k v

/-- `HashMap::contains_key` on the association-list model. -/
def alHas {α : Type} (m : List (String × α)) (k : String) : Bool :=
  (alGet m k).isSome

/-- `error.rs`: `enum ChifError`.

Modelled from the spec: `error.rs` as shipped declares the variants
`LexerError` through `Return(value)` but omits the `Break` and `Continue`
signal variants, even though `interpreter.rs` constructs them (`Statement::Break`,
`Statement::Continue`) and catches them in the `for`/`while` loops; §7 of the
specification lists `Return(value)`, `Break` and `Continue` as distinguished
error variants used exclusively for non-local exits, so the enum is modelled
with those two extra variants.  Everything else is translated from
`error.rs` verbatim. -/
inductive ChifError : Type where
  | LexerError : Nat → Nat → String → ChifError
  | ParserError : String → ChifError
  | TypeError : String → ChifError
  | RuntimeError : String → ChifError
  | VariableNotFound : String → ChifError
  | FunctionNotFound : String → ChifError
  | IndexOutOfBounds : Nat → ChifError
  | TypeMismatch : String → String → ChifError
  | InvalidOperation : String → ChifError
  | Return : ChifValue → ChifError
  | Break : ChifError
  | Continue : ChifError

/-- Outcome of a pure (non-state-mutating) fallible interpreter operation:
Rust `Result<α, ChifError>` enriched with the host-panic outcome. -/
inductive PRes (α : Type) : Type where
  | ok : α → PRes α
  | err : ChifError → PRes α
  | panic : String → PRes α

/-- `ast.rs`: `enum BinaryOperator`. -/
inductive BinaryOperator : Type where
  | Add | Subtract | Multiply | Divide | Modulo
  | Equal | NotEqual | Less | Greater | LessEqual | GreaterEqual
  | And | Or
deriving DecidableEq, Repr

/-- `ast.rs`: `enum UnaryOperator`. -/
inductive UnaryOperator : Type where
  | Not | Minus
deriving DecidableEq, Repr

/-- Rust `i64` division `l / r` (truncated toward zero); panics on a zero
divisor.  (`i64::MIN / -1` also panics in Rust; with unbounded `Int` that
case does not arise.) -/
def rustDiv (l r : Int) : PRes Int :=
  if r = 0 then .panic "attempt to divide by zero" else .ok (Int.tdiv l r)

/-- Rust `i64` remainder `l % r` (sign of the dividend); panics on a zero
divisor. -/
def rustRem (l r : Int) : PRes Int :=
  if r = 0 then .panic "attempt to calculate the remainder with a divisor of zero"
  else .ok (Int.tmod l r)

/-- Debug rendering of a binary operator (stands in for Rust `{:?}` when the
source formats an operator into an error message; no theorem depends on the
rendered text). -/
def binaryOperatorDebug : BinaryOperator → String
  | .Add => "Add" | .Subtract => "Subtract" | .Multiply => "Multiply"
  | .Divide => "Divide" | .Modulo => "Modulo" | .Equal => "Equal"
  | .NotEqual => "NotEqual" | .Less => "Less" | .Greater => "Greater"
  | .LessEqual => "LessEqual" | .GreaterEqual => "GreaterEqual"
  | .And => "And" | .Or => "Or"

/-- Debug rendering of a value's tag (stands in for Rust `{:?}` in error
messages; no theorem depends on the rendered text). -/
def chifValueDebug : ChifValue → String
  | .Int i => "Int(" ++ toString i ++ ")"
  | .Float _ => "Float"
  | .Str s => "Str(" ++ s ++ ")"
  | .Bool b => "Bool(" ++ toString b ++ ")"
  | .Nil => "Nil"
  | .Array _ => "Array"
  | .List _ => "List"
  | .Map _ => "Map"
  | .Struct n _ => "Struct(" ++ n ++ ")"
  | .Pointer _ => "Pointer"
  | .Reference n => "Reference(" ++ n ++ ")"

/-- `interpreter.rs` lines 908-982: `apply_binary_op`.  The `(Int, Int)`
`Modulo` arm computes `l % r` unguarded, exactly as in the source, so a zero
divisor is a host panic; the `Divide` arm is guarded and returns the
division-by-zero runtime error.  Mixed `Int`/`Float` operand pairs fall
through to the final catch-all arm. -/
def apply_binary_op (op : BinaryOperator) (left right : ChifValue) :
    PRes ChifValue :=
  match left, right with
  | .Int l, .Int r =>
      match op with
      | .Add => .ok (.Int (l + r))
      | .Subtract => .ok (.Int (l - r))
      | .Multiply => .ok (.Int (l * r))
      | .Divide =>
          if r = 0 then .err (.RuntimeError "Division by zero")
          else
            match rustDiv l r with
            | .ok q => .ok (.Int q)
            | .err e => .err e
            | .panic m => .panic m
      | .Modulo =>
          match rustRem l r with
          | .ok m => .ok (.Int m)
          | .err e => .err e
          | .panic m => .panic m
      | .Equal => .ok (.Bool (l = r))
      | .NotEqual => .ok (.Bool (l ≠ r))
      | .Less => .ok (.Bool (l < r))
      | .Greater => .ok (.Bool (l > r))
      | .LessEqual => .ok (.Bool (l ≤ r))
      | .GreaterEqual => .ok (.Bool (l ≥ r))
      | _ => .err (.RuntimeError
          ("Invalid operation for integers: " ++ binaryOperatorDebug op))
  | .Float l, .Float r =>
      match op with
      | .Add => .ok (.Float (l + r))
      | .Subtract => .ok (.Float (l - r))
      | .Multiply => .ok (.Float (l * r))
      | .Divide => .ok (.Float (l / r))
      | .Equal => .ok (.Bool (|l - r| < f64Epsilon))
      | .NotEqual => .ok (.Bool (|l - r| ≥ f64Epsilon))
      | .Less => .ok (.Bool (l < r))
      | .Greater => .ok (.Bool (l > r))
      | .LessEqual => .ok (.Bool (l ≤ r))
      | .GreaterEqual => .ok (.Bool (l ≥ r))
      | _ => .err (.RuntimeError
          ("Invalid operation for floats: " ++ binaryOperatorDebug op))
  | .Str l, .Str r =>
      match op with
      | .Add => .ok (.Str (l ++ r))
      | .Equal => .ok (.Bool (l = r))
      | .NotEqual => .ok (.Bool (l ≠ r))
      | .Less => .ok (.Bool (decide (l < r)))
      | .Greater => .ok (.Bool (decide (r < l)))
      | .LessEqual => .ok (.Bool (decide (l ≤ r)))
      | .GreaterEqual => .ok (.Bool (decide (r ≤ l)))
      | _ => .err (.RuntimeError
          ("Invalid operation for strings: " ++ binaryOperatorDebug op))
  | .Bool l, .Bool r =>
      match op with
      | .And => .ok (.Bool (l && r))
      | .Or => .ok (.Bool (l || r))
      | .Equal => .ok (.Bool (l = r))
      | .NotEqual => .ok (.Bool (l ≠ r))
      | _ => .err (.RuntimeError
          ("Invalid operation for booleans: " ++ binaryOperatorDebug op))
  | _, _ => .err (.RuntimeError
      ("Type mismatch in binary operation: " ++ chifValueDebug left ++ " "
        ++ binaryOperatorDebug op ++ " " ++ chifValueDebug right))

/-- `interpreter.rs` lines 984-993: `apply_unary_op`. -/
def apply_unary_op (op : UnaryOperator) (operand : ChifValue) :
    PRes ChifValue :=
  match op, operand with
  | .Not, .Bool b => .ok (.Bool (!b))
  | .Minus, .Int i => .ok (.Int (-i))
  | .Minus, .Float f => .ok (.Float (-f))
  | _, _ => .err (.RuntimeError "Invalid unary operation")

/-- `ir_gen.rs` lines 931-983: `fold_constants`.  Returns `none` when no
folding is possible.  Note the dedicated mixed `Int`/`Float` arms that
promote the integer operand to float. -/
def fold_constants (left : ChifValue) (op : BinaryOperator)
    (right : ChifValue) : Option ChifValue :=
  match left, op, right with
  | .Int a, .Add, .Int b => some (.Int (a + b))
  | .Int a, .Subtract, .Int b => some (.Int (a - b))
  | .Int a, .Multiply, .Int b => some (.Int (a * b))
  | .Int a, .Divide, .Int b =>
      if b ≠ 0 then some (.Int (Int.tdiv a b)) else none
  | .Int a, .Modulo, .Int b =>
      if b ≠ 0 then some (.Int (Int.tmod a b)) else none
  | .Int a, .Equal, .Int b => some (.Bool (a = b))
  | .Int a, .NotEqual, .Int b => some (.Bool (a ≠ b))
  | .Int a, .Less, .Int b => some (.Bool (a < b))
  | .Int a, .Greater, .Int b => some (.Bool (a > b))
  | .Int a, .LessEqual, .Int b => some (.Bool (a ≤ b))
  | .Int a, .GreaterEqual, .Int b => some (.Bool (a ≥ b))
  | .Float a, .Add, .Float b => some (.Float (a + b))
  | .Float a, .Subtract, .Float b => some (.Float (a - b))
  | .Float a, .Multiply, .Float b => some (.Float (a * b))
  | .Float a, .Divide, .Float b =>
      if b ≠ 0 then some (.Float (a / b)) else none
  | .Float a, .Equal, .Float b => some (.Bool (|a - b| < f64Epsilon))
  | .Float a, .NotEqual, .Float b => some (.Bool (|a - b| ≥ f64Epsilon))
  | .Float a, .Less, .Float b => some (.Bool (a < b))
  | .Float a, .Greater, .Float b => some (.Bool (a > b))
  | .Float a, .LessEqual, .Float b => some (.Bool (a ≤ b))
  | .Float a, .GreaterEqual, .Float b => some (.Bool (a ≥ b))
  | .Int a, .Add, .Float b => some (.Float ((a : F64) + b))
  | .Float a, .Add, .Int b => some (.Float (a + (b : F64)))
  | .Int a, .Subtract, .Float b => some (.Float ((a : F64) - b))
  | .Float a, .Subtract, .Int b => some (.Float (a - (b : F64)))
  | .Int a, .Multiply, .Float b => some (.Float ((a : F64) * b))
  | .Float a, .Multiply, .Int b => some (.Float (a * (b : F64)))
  | .Int a, .Divide, .Float b =>
      if b ≠ 0 then some (.Float ((a : F64) / b)) else none
  | .Float a, .Divide, .Int b =>
      if b ≠ 0 then some (.Float (a / (b : F64))) else none
  | .Bool a, .And, .Bool b => some (.Bool (a && b))
  | .Bool a, .Or, .Bool b => some (.Bool (a || b))
  | .Bool a, .Equal, .Bool b => some (.Bool (a = b))
  | .Bool a, .NotEqual, .Bool b => some (.Bool (a ≠ b))
  | .Str a, .Add, .Str b => some (.Str (a ++ b))
  | _, _, _ => none

/-! ### AST (`ast.rs`)

The wrapper structs of `ast.rs` (`BinaryOp`, `IfStatement`, …) are mutually
recursive with `Expression`/`Statement`, so they are declared as
single-constructor inductives inside the mutual blocks, with the Rust field
names recovered as projection functions. -/

mutual

inductive Expression : Type where
  | Literal : ChifValue → Expression
  | Identifier : String → Expression
  | Binary : BinaryOp → Expression
  | Unary : UnaryOp → Expression
  | Call : FunctionCall → Expression
  | MethodCall : MethodCall → Expression
  | Index : IndexAccess → Expression
  | FieldAccess : FieldAccess → Expression
  | ArrayLiteral : List Expression → Expression
  | MapLiteral : List (Expression × Expression) → Expression
  | StructLiteral : StructLiteral → Expression
  | Reference : Expression → Expression
  | Dereference : Expression → Expression

inductive BinaryOp : Type where
  | mk : Expression → BinaryOperator → Expression → BinaryOp

inductive UnaryOp : Type where
  | mk : UnaryOperator → Expression → UnaryOp

inductive FunctionCall : Type where
  | mk : String → List Expression → FunctionCall

inductive MethodCall : Type where
  | mk : Expression → String → List Expression → MethodCall

inductive IndexAccess : Type where
  | mk : Expression → List Expression → IndexAccess

inductive FieldAccess : Type where
  | mk : Expression → String → FieldAccess

inductive StructLiteral : Type where
  | mk : String → List (String × Expression) → StructLiteral

end

def BinaryOp.left : BinaryOp → Expression
  | .mk l _ _ => l

def BinaryOp.operator : BinaryOp → BinaryOperator
  | .mk _ o _ => o

def BinaryOp.right : BinaryOp → Expression
  | .mk _ _ r => r

def UnaryOp.operator : UnaryOp → UnaryOperator
  | .mk o _ => o

def UnaryOp.operand : UnaryOp → Expression
  | .mk _ e => e

def FunctionCall.name : FunctionCall → String
  | .mk n _ => n

def FunctionCall.args : FunctionCall → List Expression
  | .mk _ a => a

def MethodCall.object : MethodCall → Expression
  | .mk o _ _ => o

def MethodCall.method : MethodCall → String
  | .mk _ m _ => m

def MethodCall.args : MethodCall → List Expression
  | .mk _ _ a => a

def IndexAccess.object : IndexAccess → Expression
  | .mk o _ => o

def IndexAccess.indices : IndexAccess → List Expression
  | .mk _ i => i

def FieldAccess.object : FieldAccess → Expression
  | .mk o _ => o

def FieldAccess.field : FieldAccess → String
  | .mk _ f => f

def StructLiteral.struct_name : StructLiteral → String
  | .mk n _ => n

def StructLiteral.fields : StructLiteral → List (String × Expression)
  | .mk _ f => f

mutual

inductive Statement : Type where
  | VarDecl : VarDecl → Statement
  | Assignment : Assignment → Statement
  | Expression : Rono.Expression → Statement
  | If : IfStatement → Statement
  | For : ForStatement → Statement
  | While : WhileStatement → Statement
  | Switch : SwitchStatement → Statement
  | Return : Option Rono.Expression → Statement
  | Break : Statement
  | Continue : Statement

inductive VarDecl : Type where
  | mk : String → ChifType → Option Rono.Expression → Bool → VarDecl

inductive Assignment : Type where
  | mk : Rono.Expression → Rono.Expression → Assignment

inductive IfStatement : Type where
  | mk : Rono.Expression → Block → Option Block → IfStatement

inductive ForStatement : Type where
  | mk : Option Statement → Option Rono.Expression → Option Statement →
      Block → ForStatement

inductive WhileStatement : Type where
  | mk : Rono.Expression → Block → WhileStatement

inductive SwitchStatement : Type where
  | mk : Rono.Expression → List SwitchCase → Option Block → SwitchStatement

inductive SwitchCase : Type where
  | mk : Rono.Expression → Block → SwitchCase

inductive Block : Type where
  | mk : List Statement → Block

end

def VarDecl.name : VarDecl → String
  | .mk n _ _ _ => n

def VarDecl.var_type : VarDecl → ChifType
  | .mk _ t _ _ => t

def VarDecl.value : VarDecl → Option Expression
  | .mk _ _ v _ => v

def VarDecl.is_mutable : VarDecl → Bool
  | .mk _ _ _ m => m

def Assignment.target : Assignment → Expression
  | .mk t _ => t

def Assignment.value : Assignment → Expression
  | .mk _ v => v

def IfStatement.condition : IfStatement → Expression
  | .mk c _ _ => c

def IfStatement.then_block : IfStatement → Block
  | .mk _ t _ => t

def IfStatement.else_block : IfStatement → Option Block
  | .mk _ _ e => e

def ForStatement.init : ForStatement → Option Statement
  | .mk i _ _ _ => i

def ForStatement.condition : ForStatement → Option Expression
  | .mk _ c _ _ => c

def ForStatement.update : ForStatement → Option Statement
  | .mk _ _ u _ => u

def ForStatement.body : ForStatement → Block
  | .mk _ _ _ b => b

def WhileStatement.condition : WhileStatement → Expression
  | .mk c _ => c

def WhileStatement.body : WhileStatement → Block
  | .mk _ b => b

def SwitchStatement.expr : SwitchStatement → Expression
  | .mk e _ _ => e

def SwitchStatement.cases : SwitchStatement → List SwitchCase
  | .mk _ c _ => c

def SwitchStatement.default_case : SwitchStatement → Option Block
  | .mk _ _ d => d

def SwitchCase.value : SwitchCase → Expression
  | .mk v _ => v

def SwitchCase.body : SwitchCase → Block
  | .mk _ b => b

def Block.statements : Block → List Statement
  | .mk s => s

/-- `ast.rs`: `struct Parameter`. -/
structure Parameter : Type where
  name : String
  param_type : ChifType
  is_reference : Bool

/-- `ast.rs`: `struct Function`. -/
structure Function : Type where
  name : String
  params : List Parameter
  return_type : Option ChifType
  body : Block
  is_main : Bool

/-- `ast.rs`: `struct StructField`. -/
structure StructField : Type where
  name : String
  field_type : ChifType

/-- `ast.rs`: `struct StructDef`. -/
structure StructDef : Type where
  name : String
  fields : List StructField

/-- `ast.rs`: `struct StructImpl`. -/
structure StructImpl : Type where
  struct_name : String
  methods : List Function

/-- `ast.rs`: `struct ImportStatement` (the Rust field `alias` is a reserved
word in Lean, hence `aliasName`). -/
structure ImportStatement : Type where
  path : String
  aliasName : Option String

/-- `ast.rs`: `enum Item`. -/
inductive Item : Type where
  | Import : ImportStatement → Item
  | Function : Rono.Function → Item
  | Struct : StructDef → Item
  | StructImpl : Rono.StructImpl → Item

/-- `ast.rs`: `struct Program`. -/
structure Program : Type where
  items : List Item

/-! ### Return-coverage analysis (`semantic.rs` lines 481-524) -/

mutual

/-- `semantic.rs` lines 490-524: `statement_always_returns`. -/
def statement_always_returns : Statement → Bool
  | .Return _ => true
  | .If s =>
      match s with
      | .mk _ tb (some eb) => block_always_returns tb && block_always_returns eb
      | .mk _ _ none => false
  | .Switch s =>
      match s with
      | .mk _ cs (some d) => cases_always_return cs && block_always_returns d
      | .mk _ _ none => false
  | _ => false

/-- The `for case in &switch_stmt.cases` loop inside
`statement_always_returns` (early `false` on the first case whose body does
not always return). -/
def cases_always_return : List SwitchCase → Bool
  | [] => true
  | .mk _ body :: rest => block_always_returns body && cases_always_return rest

/-- `semantic.rs` lines 481-488: `block_always_returns`. -/
def block_always_returns : Block → Bool
  | .mk stmts => stmts_any_returns stmts

/-- The `for statement in &block.statements` loop inside
`block_always_returns` (early `true` on the first statement that always
returns). -/
def stmts_any_returns : List Statement → Bool
  | [] => false
  | s :: rest => statement_always_returns s || stmts_any_returns rest

end

/-! ### Semantic analyzer (`semantic.rs`) -/

/-- `compiler.rs`: `struct SourceLocation`. -/
structure SourceLocation : Type where
  file : String
  line : Nat
  column : Nat
deriving DecidableEq

/-- `SourceLocation::unknown()`. -/
def SourceLocation.unknown : SourceLocation :=
  { file := "<unknown>", line := 0, column := 0 }

/-- `semantic.rs` lines 8-40: `enum SemanticError`. -/
inductive SemanticError : Type where
  | TypeMismatch : SourceLocation → ChifType → ChifType → SemanticError
  | UndefinedSymbol : String → SourceLocation → SemanticError
  | SymbolAlreadyDefined : String → SourceLocation → SemanticError
  | InvalidOperation : SourceLocation → String → SemanticError
  | InvalidBreak : SemanticError
  | InvalidContinue : SemanticError

/-- `semantic.rs`: `struct FunctionSignature`. -/
structure FunctionSignature : Type where
  name : String
  parameters : List Parameter
  return_type : ChifType
  is_mutating : Bool

/-- `semantic.rs`: `struct StructDefinition`. -/
structure StructDefinition : Type where
  name : String
  fields : List StructField

/-- `semantic.rs`: `struct ModuleInfo`. -/
structure ModuleInfo : Type where
  name : String
  functions : List (String × FunctionSignature)
  structs : List (String × StructDefinition)

/-- `semantic.rs`: `enum SymbolType`. -/
inductive SymbolType : Type where
  | Variable : ChifType → SymbolType
  | Function : FunctionSignature → SymbolType
  | Struct : StructDefinition → SymbolType
  | Module : ModuleInfo → SymbolType

/-- `semantic.rs`: `struct Symbol`. -/
structure Symbol : Type where
  name : String
  symbol_type : SymbolType
  location : SourceLocation
  is_mutable : Bool

/-- `semantic.rs`: `struct Scope` (symbols as an association list). -/
structure Scope : Type where
  symbols : List (String × Symbol)
  parent : Option Nat

/-- `Scope::new`. -/
def Scope.new (parent : Option Nat) : Scope :=
  { symbols := [], parent := parent }

/-- `semantic.rs` lines 88-98: `Scope::define_symbol` — rejects redefinition
of a name already present in this scope, otherwise inserts. -/
def Scope.define_symbol (sc : Scope) (sym : Symbol) :
    Except SemanticError Scope :=
  if alHas sc.symbols sym.name then
    .error (.SymbolAlreadyDefined sym.name sym.location)
  else
    .ok { sc with symbols := alInsert sc.symbols sym.name sym }

/-- `Scope::lookup_symbol`. -/
def Scope.lookup_symbol (sc : Scope) (name : String) : Option Symbol :=
  alGet sc.symbols name

/-- `semantic.rs` lines 105-109: `struct SymbolTable` — a vector of scopes
with an integer cursor. -/
structure SymbolTable : Type where
  scopes : List Scope
  current_scope : Nat

/-- `SymbolTable::new`: one global scope, cursor 0. -/
def SymbolTable.new : SymbolTable :=
  { scopes := [Scope.new none], current_scope := 0 }

/-- `SymbolTable::push_scope`. -/
def SymbolTable.push_scope (t : SymbolTable) : SymbolTable :=
  { scopes := t.scopes ++ [Scope.new (some t.current_scope)],
    current_scope := t.scopes.length }

/-- `SymbolTable::pop_scope`. -/
def SymbolTable.pop_scope (t : SymbolTable) :
    Except SemanticError SymbolTable :=
  if t.current_scope = 0 then
    .error (.InvalidOperation SourceLocation.unknown "Cannot pop global scope")
  else
    match (t.scopes.getD t.current_scope (Scope.new none)).parent with
    | some p => .ok { t with current_scope := p }
    | none => .ok t

/-- `SymbolTable::define_symbol`: delegates to the current scope.  (The Rust
code indexes `scopes[current_scope]`, which never goes out of bounds because
the cursor always points at a pushed scope; the model uses `getD` with an
empty scope as the irrelevant default.) -/
def SymbolTable.define_symbol (t : SymbolTable) (sym : Symbol) :
    Except SemanticError SymbolTable :=
  match (t.scopes.getD t.current_scope (Scope.new none)).define_symbol sym with
  | .error e => .error e
  | .ok sc2 => .ok { t with scopes := t.scopes.set t.current_scope sc2 }

/-- The parent-chain walk of `SymbolTable::lookup_symbol`.  In the source the
chain always points to strictly earlier scopes, so the walk terminates; the
fuel `scopes.length + 1` covers every chain the analyzer can build. -/
def SymbolTable.lookup_walk (t : SymbolTable) (name : String) :
    Nat → Nat → Option Symbol
  | 0, _ => none
  | n + 1, i =>
      let sc := t.scopes.getD i (Scope.new none)
      match sc.lookup_symbol name with
      | some s => some s
      | none =>
          match sc.parent with
          | some p => t.lookup_walk name n p
          | none => none

/-- `semantic.rs` lines 147-163: `SymbolTable::lookup_symbol`. -/
def SymbolTable.lookup_symbol (t : SymbolTable) (name : String) :
    Option Symbol :=
  t.lookup_walk name (t.scopes.length + 1) t.current_scope

/-- `semantic.rs` lines 166-178: the analyzer's mutable state. -/
structure SemanticAnalyzer : Type where
  symbol_table : SymbolTable
  in_loop : Bool
  current_function_return_type : Option ChifType
  modules : List (String × ModuleInfo)

/-- `SemanticAnalyzer::new`. -/
def SemanticAnalyzer.new : SemanticAnalyzer :=
  { symbol_table := SymbolTable.new, in_loop := false,
    current_function_return_type := none, modules := [] }

/-- `semantic.rs` lines 430-479: `types_compatible` (structural equality plus
the Int→Float promotion, Array↔List compatibility and Nil-to-Pointer). -/
def types_compatible : ChifType → ChifType → Bool
  | .Int, .Int => true
  | .Float, .Float => true
  | .Str, .Str => true
  | .Bool, .Bool => true
  | .Nil, .Nil => true
  | .Float, .Int => true
  | .Array e _, .Array a _ => types_compatible e a
  | .List e _, .List a _ => types_compatible e a
  | .List e _, .Array a _ => types_compatible e a
  | .Array e _, .List a _ => types_compatible e a
  | .Map ek ev, .Map ak av => types_compatible ek ak && types_compatible ev av
  | .Struct en, .Struct an => en = an
  | .Pointer ei, .Pointer ai => types_compatible ei ai
  | .Pointer _, .Nil => true
  | _, _ => false

/-- `semantic.rs` lines 1736-1747: `is_self_field_access`. -/
def is_self_field_access : Expression → Bool
  | .FieldAccess fa =>
      match fa.object with
      | .Identifier name => name = "self"
      | _ => false
  | _ => false

mutual

/-- `semantic.rs` lines 1695-1733: `analyze_statement_for_self_mutation`. -/
def analyze_statement_for_self_mutation : Statement → Bool
  | .Assignment a => is_self_field_access a.target
  | .If s =>
      match s with
      | .mk _ tb eb =>
          let thenMut := analyze_block_for_self_mutation tb
          let elseMut :=
            match eb with
            | some b => analyze_block_for_self_mutation b
            | none => false
          thenMut || elseMut
  | .For s =>
      match s with
      | .mk _ _ _ body => analyze_block_for_self_mutation body
  | .While s =>
      match s with
      | .mk _ body => analyze_block_for_self_mutation body
  | .Switch s =>
      match s with
      | .mk _ cs d =>
          anyCaseSelfMutation cs ||
            (match d with
             | some b => analyze_block_for_self_mutation b
             | none => false)
  | _ => false

/-- The `for case in &switch_stmt.cases` loop inside
`analyze_statement_for_self_mutation`. -/
def anyCaseSelfMutation : List SwitchCase → Bool
  | [] => false
  | .mk _ body :: rest =>
      analyze_block_for_self_mutation body || anyCaseSelfMutation rest

/-- `semantic.rs` lines 1685-1692: `analyze_block_for_self_mutation`. -/
def analyze_block_for_self_mutation : Block → Bool
  | .mk stmts => anyStmtSelfMutation stmts

/-- The statement loop inside `analyze_block_for_self_mutation`. -/
def anyStmtSelfMutation : List Statement → Bool
  | [] => false
  | s :: rest => analyze_statement_for_self_mutation s || anyStmtSelfMutation rest

end

/-- `semantic.rs` lines 1673-1682: `analyze_method_mutability`. -/
def analyze_method_mutability (method : Function) : Bool :=
  if method.params.any (fun p => p.name = "self") then
    analyze_block_for_self_mutation method.body
  else
    false

/-- Builds the `Symbol` records used by `add_builtin_functions`. -/
def builtinFnSymbol (name : String) (params : List Parameter)
    (ret : ChifType) : Symbol :=
  { name := name,
    symbol_type := .Function
      { name := name, parameters := params, return_type := ret,
        is_mutating := false },
    location := SourceLocation.unknown,
    is_mutable := false }

/-- `semantic.rs` lines 1318-1523: `add_builtin_functions`.  The sequence of
`define_symbol` calls is translated in source order: `con`, `randi`, `randf`,
`rands`, `int(float)`, `int(str)`, `float(int)`, `float(str)`, `str(int)`,
`float(str)` again, `str(int)` again, `http`.  (The `str(float)` signature is
constructed in the source but never passed to `define_symbol`, so it does not
appear here.)  Note that the second `define_symbol` for the name `int`
necessarily hits the same-scope redefinition check of `Scope::define_symbol`. -/
def add_builtin_functions (a : SemanticAnalyzer) :
    Except SemanticError SemanticAnalyzer :=
  let conSymbol : Symbol :=
    { name := "con", symbol_type := .Variable (.Struct "Console"),
      location := SourceLocation.unknown, is_mutable := false }
  match a.symbol_table.define_symbol conSymbol with
  | .error e => .error e
  | .ok t1 =>
  match t1.define_symbol (builtinFnSymbol "randi"
      [{ name := "min", param_type := .Int, is_reference := false },
       { name := "max", param_type := .Int, is_reference := false }] .Int) with
  | .error e => .error e
  | .ok t2 =>
  match t2.define_symbol (builtinFnSymbol "randf"
      [{ name := "min", param_type := .Float, is_reference := false },
       { name := "max", param_type := .Float, is_reference := false }] .Float) with
  | .error e => .error e
  | .ok t3 =>
  match t3.define_symbol (builtinFnSymbol "rands"
      [{ name := "from", param_type := .Str, is_reference := false },
       { name := "to", param_type := .Str, is_reference := false }] .Str) with
  | .error e => .error e
  | .ok t4 =>
  match t4.define_symbol (builtinFnSymbol "int"
      [{ name := "value", param_type := .Float, is_reference := false }] .Int) with
  | .error e => .error e
  | .ok t5 =>
  match t5.define_symbol (builtinFnSymbol "int"
      [{ name := "value", param_type := .Str, is_reference := false }] .Int) with
  | .error e => .error e
  | .ok t6 =>
  match t6.define_symbol (builtinFnSymbol "float"
      [{ name := "value", param_type := .Int, is_reference := false }] .Float) with
  | .error e => .error e
  | .ok t7 =>
  match t7.define_symbol (builtinFnSymbol "float"
      [{ name := "value", param_type := .Str, is_reference := false }] .Float) with
  | .error e => .error e
  | .ok t8 =>
  match t8.define_symbol (builtinFnSymbol "str"
      [{ name := "value", param_type := .Int, is_reference := false }] .Str) with
  | .error e => .error e
  | .ok t9 =>
  match t9.define_symbol (builtinFnSymbol "float"
      [{ name := "value", param_type := .Str, is_reference := false }] .Float) with
  | .error e => .error e
  | .ok t10 =>
  match t10.define_symbol (builtinFnSymbol "str"
      [{ name := "value", param_type := .Int, is_reference := false }] .Str) with
  | .error e => .error e
  | .ok t11 =>
  let httpSymbol : Symbol :=
    { name := "http", symbol_type := .Variable (.Struct "Http"),
      location := SourceLocation.unknown, is_mutable := false }
  match t11.define_symbol httpSymbol with
  | .error e => .error e
  | .ok t12 => .ok { a with symbol_table := t12 }

/-- `semantic.rs` lines 1525-1670: `process_import`.  The function starts by
reading the imported file from the filesystem; the model fixes the execution
environment to an empty filesystem, under which `fs::read_to_string` always
fails and the function returns exactly the source's could-not-read error.
(No claim exercises imports.) -/
def process_import (a : SemanticAnalyzer) (imp : ImportStatement) :
    Except SemanticError SemanticAnalyzer :=
  let file_path :=
    if imp.path.endsWith ".rono" then imp.path else imp.path ++ ".rono"
  let _ := a
  .error (.InvalidOperation SourceLocation.unknown
    ("Could not read module file: " ++ file_path))

/-- The method loop of the `Item::StructImpl` arm in `collect_definitions`:
each method is defined under the mangled name `Struct_method` with the
inferred mutability flag. -/
def collect_impl_methods (a : SemanticAnalyzer) (structName : String) :
    List Function → Except SemanticError SemanticAnalyzer
  | [] => .ok a
  | method :: rest =>
      let method_name := structName ++ "_" ++ method.name
      let is_mutating := analyze_method_mutability method
      let signature : FunctionSignature :=
        { name := method_name, parameters := method.params,
          return_type := method.return_type.getD .Nil,
          is_mutating := is_mutating }
      let symbol : Symbol :=
        { name := method_name, symbol_type := .Function signature,
          location := SourceLocation.unknown, is_mutable := false }
      match a.symbol_table.define_symbol symbol with
      | .error e => .error e
      | .ok t => collect_impl_methods { a with symbol_table := t } structName rest

/-- The per-item body of the `collect_definitions` loop
(`semantic.rs` lines 545-610). -/
def collect_definitions_item (a : SemanticAnalyzer) (item : Item) :
    Except SemanticError SemanticAnalyzer :=
  match item with
  | .Function func =>
      let signature : FunctionSignature :=
        { name := func.name, parameters := func.params,
          return_type := func.return_type.getD .Nil, is_mutating := false }
      let symbol : Symbol :=
        { name := func.name, symbol_type := .Function signature,
          location := SourceLocation.unknown, is_mutable := false }
      match a.symbol_table.define_symbol symbol with
      | .error e => .error e
      | .ok t => .ok { a with symbol_table := t }
  | .Struct sd =>
      let structDefinition : StructDefinition :=
        { name := sd.name, fields := sd.fields }
      let symbol : Symbol :=
        { name := sd.name, symbol_type := .Struct structDefinition,
          location := SourceLocation.unknown, is_mutable := false }
      match a.symbol_table.define_symbol symbol with
      | .error e => .error e
      | .ok t => .ok { a with symbol_table := t }
  | .StructImpl impl => collect_impl_methods a impl.struct_name impl.methods
  | .Import imp => process_import a imp

/-- The item loop of `collect_definitions`. -/
def collect_definitions_items (a : SemanticAnalyzer) :
    List Item → Except SemanticError SemanticAnalyzer
  | [] => .ok a
  | item :: rest =>
      match collect_definitions_item a item with
      | .error e => .error e
      | .ok a2 => collect_definitions_items a2 rest

/-- `semantic.rs` lines 541-613: `collect_definitions` — seeds the builtins,
then walks the top-level items. -/
def collect_definitions (a : SemanticAnalyzer) (program : Program) :
    Except SemanticError SemanticAnalyzer :=
  match add_builtin_functions a with
  | .error e => .error e
  | .ok a2 => collect_definitions_items a2 program.items

/-- Result of a semantic-analyzer pass step: success carries the updated
analyzer state; on the first error the pipeline aborts (`semantic.rs` never
catches a `SemanticError`), so errors carry no state.  `timeout` is the
fuel-exhaustion artifact of the embedding and never occurs in any theorem. -/
inductive SRes (α : Type) : Type where
  | ok : α → SemanticAnalyzer → SRes α
  | err : SemanticError → SRes α
  | timeout : SRes α

/-- Debug rendering of a type (stands in for Rust `{:?}` in analyzer error
messages; no theorem depends on the rendered text). -/
def chifTypeDebug : ChifType → String
  | .Int => "Int"
  | .Float => "Float"
  | .Str => "Str"
  | .Bool => "Bool"
  | .Nil => "Nil"
  | .Array t _ => "Array(" ++ chifTypeDebug t ++ ")"
  | .List t _ => "List(" ++ chifTypeDebug t ++ ")"
  | .Map k v => "Map(" ++ chifTypeDebug k ++ ", " ++ chifTypeDebug v ++ ")"
  | .Struct n => "Struct(" ++ n ++ ")"
  | .Pointer t => "Pointer(" ++ chifTypeDebug t ++ ")"

/-- `semantic.rs` lines 783-797: the `Expression::Literal` arm of
`analyze_expression` (static type of a literal value). -/
def literal_type : ChifValue → ChifType
  | .Int _ => .Int
  | .Float _ => .Float
  | .Str _ => .Str
  | .Bool _ => .Bool
  | .Nil => .Nil
  | .Array _ => .Array .Nil [0]
  | .List _ => .List .Nil []
  | .Map _ => .Map .Nil .Nil
  | .Struct _ _ => .Nil
  | .Pointer _ => .Pointer .Nil
  | .Reference _ => .Pointer .Nil

/-- The argument-type loop of the `Expression::Call` arm
(`semantic.rs` lines 918-939); both the reference and the value branch
perform the identical `types_compatible` check. -/
def check_call_arg_types : List ChifType → List Parameter →
    Option SemanticError
  | argT :: ats, p :: ps =>
      if !types_compatible p.param_type argT then
        some (.TypeMismatch SourceLocation.unknown p.param_type argT)
      else check_call_arg_types ats ps
  | _, _ => none

/-- The required-fields loop of the `Expression::StructLiteral` arm
(`semantic.rs` lines 962-975): first declared field not provided by the
literal, if any. -/
def missing_struct_field : List StructField → List (String × Expression) →
    Option String
  | [], _ => none
  | f :: fs, lits =>
      if lits.any (fun p => p.1 = f.name) then missing_struct_field fs lits
      else some f.name

/-- The parameter loop of `analyze_item`'s `Item::Function` arm
(`semantic.rs` lines 634-645): reference parameters are marked mutable. -/
def define_params_analyze (t : SymbolTable) :
    List Parameter → Except SemanticError SymbolTable
  | [] => .ok t
  | p :: ps =>
      let symbol : Symbol :=
        { name := p.name, symbol_type := .Variable p.param_type,
          location := SourceLocation.unknown, is_mutable := p.is_reference }
      match t.define_symbol symbol with
      | .error e => .error e
      | .ok t2 => define_params_analyze t2 ps

/-- The parameter loop of `check_item_types`'s `Item::Function` arm
(`semantic.rs` lines 207-215): here every parameter symbol is created with
`is_mutable: false`. -/
def define_params_check (t : SymbolTable) :
    List Parameter → Except SemanticError SymbolTable
  | [] => .ok t
  | p :: ps =>
      let symbol : Symbol :=
        { name := p.name, symbol_type := .Variable p.param_type,
          location := SourceLocation.unknown, is_mutable := false }
      match t.define_symbol symbol with
      | .error e => .error e
      | .ok t2 => define_params_check t2 ps

/-- `semantic.rs` lines 220-232: the return-coverage enforcement inside
`check_item_types` — a function with a declared non-`Nil` return type that is
not `main` and whose body does not always return is rejected. -/
def return_coverage_check (func : Function) : Except SemanticError Unit :=
  match func.return_type with
  | some rt =>
      if !(rt == ChifType.Nil) && !func.is_main &&
          !block_always_returns func.body then
        .error (.InvalidOperation SourceLocation.unknown
          ("Function " ++ func.name ++ " must return a value of type "
            ++ chifTypeDebug rt ++ " in all code paths"))
      else .ok ()
  | none => .ok ()

mutual

/-- `semantic.rs` lines 781-1316: `analyze_expression` (pass 2/3 expression
typing).  Structured exactly as the source `match`; the list loops of the
source become the sibling functions below. -/
def analyze_expression : Nat → SemanticAnalyzer → Expression → SRes ChifType
  | 0, _, _ => .timeout
  | fuel + 1, a, e =>
    match e with
    | .Literal v => .ok (literal_type v) a
    | .Identifier name =>
        match a.symbol_table.lookup_symbol name with
        | some sym =>
            match sym.symbol_type with
            | .Variable t => .ok t a
            | _ => .err (.InvalidOperation SourceLocation.unknown
                (name ++ " is not a variable"))
        | none => .err (.UndefinedSymbol name SourceLocation.unknown)
    | .Binary bop =>
        match bop with
        | .mk l op r =>
          match analyze_expression fuel a l with
          | .err e2 => .err e2
          | .timeout => .timeout
          | .ok lt a2 =>
            match analyze_expression fuel a2 r with
            | .err e2 => .err e2
            | .timeout => .timeout
            | .ok rt a3 =>
              match op with
              | .Add | .Subtract | .Multiply | .Divide | .Modulo =>
                  match lt, rt with
                  | .Int, .Int => .ok .Int a3
                  | .Float, .Float => .ok .Float a3
                  | .Int, .Float => .ok .Float a3
                  | .Float, .Int => .ok .Float a3
                  | .Str, .Str =>
                      if op = .Add then .ok .Str a3
                      else .err (.TypeMismatch SourceLocation.unknown .Str .Str)
                  | _, _ =>
                      .err (.TypeMismatch SourceLocation.unknown lt rt)
              | .Equal | .NotEqual => .ok .Bool a3
              | .Less | .Greater | .LessEqual | .GreaterEqual =>
                  match lt, rt with
                  | .Int, .Int => .ok .Bool a3
                  | .Float, .Float => .ok .Bool a3
                  | .Int, .Float => .ok .Bool a3
                  | .Float, .Int => .ok .Bool a3
                  | .Str, .Str => .ok .Bool a3
                  | _, _ =>
                      .err (.TypeMismatch SourceLocation.unknown lt rt)
              | .And | .Or =>
                  if lt = ChifType.Bool ∧ rt = ChifType.Bool then .ok .Bool a3
                  else .err (.TypeMismatch SourceLocation.unknown .Bool
                    (if lt ≠ ChifType.Bool then lt else rt))
    | .Unary uop =>
        match uop with
        | .mk op operand =>
          match analyze_expression fuel a operand with
          | .err e2 => .err e2
          | .timeout => .timeout
          | .ok t a2 =>
            match op with
            | .Minus =>
                match t with
                | .Int => .ok .Int a2
                | .Float => .ok .Float a2
                | _ => .err (.InvalidOperation SourceLocation.unknown
                    ("Cannot apply unary minus to type " ++ chifTypeDebug t))
            | .Not =>
                if t = ChifType.Bool then .ok .Bool a2
                else .err (.TypeMismatch SourceLocation.unknown .Bool t)
    | .Call fc =>
        match analyze_expr_list fuel a fc.args with
        | .err e2 => .err e2
        | .timeout => .timeout
        | .ok argTypes a2 =>
          match a2.symbol_table.lookup_symbol fc.name with
          | some sym =>
              match sym.symbol_type with
              | .Function signature =>
                  if argTypes.length ≠ signature.parameters.length then
                    .err (.InvalidOperation SourceLocation.unknown
                      ("Function " ++ fc.name ++ " expects "
                        ++ toString signature.parameters.length
                        ++ " arguments, got " ++ toString argTypes.length))
                  else
                    match check_call_arg_types argTypes signature.parameters with
                    | some e2 => .err e2
                    | none => .ok signature.return_type a2
              | _ => .err (.InvalidOperation SourceLocation.unknown
                  (fc.name ++ " is not a function"))
          | none => .err (.UndefinedSymbol fc.name SourceLocation.unknown)
    | .StructLiteral sl =>
        match a.symbol_table.lookup_symbol sl.struct_name with
        | some sym =>
            match sym.symbol_type with
            | .Struct struct_def =>
                match missing_struct_field struct_def.fields sl.fields with
                | some fieldName =>
                    .err (.InvalidOperation SourceLocation.unknown
                      ("Missing field " ++ fieldName
                        ++ " in struct literal for " ++ sl.struct_name))
                | none =>
                    match analyze_struct_lit_fields fuel a sl.fields struct_def
                        sl.struct_name with
                    | .err e2 => .err e2
                    | .timeout => .timeout
                    | .ok _ a2 => .ok (.Struct sl.struct_name) a2
            | _ => .err (.InvalidOperation SourceLocation.unknown
                (sl.struct_name ++ " is not a struct"))
        | none => .err (.UndefinedSymbol sl.struct_name SourceLocation.unknown)
    | .FieldAccess fa =>
        match analyze_expression fuel a fa.object with
        | .err e2 => .err e2
        | .timeout => .timeout
        | .ok objT a2 =>
          match objT with
          | .Struct struct_name =>
              match a2.symbol_table.lookup_symbol struct_name with
              | some sym =>
                  match sym.symbol_type with
                  | .Struct struct_def =>
                      match struct_def.fields.find?
                          (fun f => f.name = fa.field) with
                      | some f => .ok f.field_type a2
                      | none => .err (.InvalidOperation SourceLocation.unknown
                          ("Field " ++ fa.field ++ " not found in struct "
                            ++ struct_name))
                  | _ => .err (.InvalidOperation SourceLocation.unknown
                      (struct_name ++ " is not a struct"))
              | none =>
                  .err (.UndefinedSymbol struct_name SourceLocation.unknown)
          | _ => .err (.InvalidOperation SourceLocation.unknown
              ("Cannot access field " ++ fa.field ++ " on non-struct type "
                ++ chifTypeDebug objT))
    | .MethodCall mc =>
        match mc.object with
        | .Identifier objName =>
            if objName = "con" ∧ mc.method = "out" then
              match analyze_expr_list fuel a mc.args with
              | .err e2 => .err e2
              | .timeout => .timeout
              | .ok _ a2 => .ok .Nil a2
            else if objName = "con" ∧ mc.method = "in" then
              if !mc.args.isEmpty then
                .err (.InvalidOperation SourceLocation.unknown
                  "con.in expects no arguments")
              else .ok .Int a
            else if objName = "http" ∧ mc.method = "get" then
              if mc.args.length ≠ 1 then
                .err (.InvalidOperation SourceLocation.unknown
                  "http.get expects 1 argument (url)")
              else
                match analyze_http_str_args fuel a mc.args with
                | .err e2 => .err e2
                | .timeout => .timeout
                | .ok _ a2 => .ok .Str a2
            else if objName = "http" ∧ mc.method = "post" then
              if mc.args.length ≠ 2 then
                .err (.InvalidOperation SourceLocation.unknown
                  "http.post expects 2 arguments (url, data)")
              else
                match analyze_http_str_args fuel a mc.args with
                | .err e2 => .err e2
                | .timeout => .timeout
                | .ok _ a2 => .ok .Str a2
            else if objName = "http" ∧ mc.method = "put" then
              if mc.args.length ≠ 2 then
                .err (.InvalidOperation SourceLocation.unknown
                  "http.put expects 2 arguments (url, data)")
              else
                match analyze_http_str_args fuel a mc.args with
                | .err e2 => .err e2
                | .timeout => .timeout
                | .ok _ a2 => .ok .Str a2
            else if objName = "http" ∧ mc.method = "delete" then
              if mc.args.length ≠ 1 then
                .err (.InvalidOperation SourceLocation.unknown
                  "http.delete expects 1 argument (url)")
              else
                match analyze_http_str_args fuel a mc.args with
                | .err e2 => .err e2
                | .timeout => .timeout
                | .ok _ a2 => .ok .Str a2
            else analyze_method_call_general fuel a mc
        | _ => analyze_method_call_general fuel a mc
    | .ArrayLiteral elems =>
        match elems with
        | [] => .ok (.Array .Nil [0]) a
        | first :: rest =>
          match analyze_expression fuel a first with
          | .err e2 => .err e2
          | .timeout => .timeout
          | .ok firstT a2 =>
            match analyze_array_rest fuel a2 firstT rest with
            | .err e2 => .err e2
            | .timeout => .timeout
            | .ok _ a3 =>
              match firstT with
              | .Array inner innerDims =>
                  .ok (.Array inner (elems.length :: innerDims)) a3
              | _ => .ok (.Array firstT [elems.length]) a3
    | .Index ia =>
        match analyze_expression fuel a ia.object with
        | .err e2 => .err e2
        | .timeout => .timeout
        | .ok arrT a2 =>
          match analyze_indices fuel a2 ia.indices with
          | .err e2 => .err e2
          | .timeout => .timeout
          | .ok _ a3 =>
            match arrT with
            | .Array elemT dims =>
                if ia.indices.length = 1 then .ok elemT a3
                else
                  let remaining := dims.drop ia.indices.length
                  if remaining.isEmpty then .ok elemT a3
                  else .ok (.Array elemT remaining) a3
            | .List elemT _ => .ok elemT a3
            | _ => .err (.InvalidOperation SourceLocation.unknown
                ("Cannot index non-array type " ++ chifTypeDebug arrT))
    | .Reference inner =>
        match analyze_expression fuel a inner with
        | .err e2 => .err e2
        | .timeout => .timeout
        | .ok t a2 => .ok (.Pointer t) a2
    | .Dereference inner =>
        match analyze_expression fuel a inner with
        | .err e2 => .err e2
        | .timeout => .timeout
        | .ok t a2 =>
          match t with
          | .Pointer pointee => .ok pointee a2
          | _ => .err (.InvalidOperation SourceLocation.unknown
              ("Cannot dereference non-pointer type " ++ chifTypeDebug t))
    | .MapLiteral _ => .ok .Nil a

/-- The general (non-`con`/`http`) tail of the `Expression::MethodCall` arm
(`semantic.rs` lines 1156-1217). -/
def analyze_method_call_general : Nat → SemanticAnalyzer → MethodCall →
    SRes ChifType
  | 0, _, _ => .timeout
  | fuel + 1, a, mc =>
    match analyze_expression fuel a mc.object with
    | .err e2 => .err e2
    | .timeout => .timeout
    | .ok objT a2 =>
      match analyze_expr_list fuel a2 mc.args with
      | .err e2 => .err e2
      | .timeout => .timeout
      | .ok argTypes a3 =>
        match objT with
        | .Struct struct_name =>
            let method_name := struct_name ++ "_" ++ mc.method
            match a3.symbol_table.lookup_symbol method_name with
            | some sym =>
                match sym.symbol_type with
                | .Function signature =>
                    let expected_args := signature.parameters.length - 1
                    if argTypes.length ≠ expected_args then
                      .err (.InvalidOperation SourceLocation.unknown
                        ("Method " ++ mc.method ++ " expects "
                          ++ toString expected_args ++ " arguments, got "
                          ++ toString argTypes.length))
                    else
                      match check_call_arg_types argTypes
                          (signature.parameters.drop 1) with
                      | some e2 => .err e2
                      | none => .ok signature.return_type a3
                | _ => .err (.InvalidOperation SourceLocation.unknown
                    (method_name ++ " is not a method"))
            | none =>
                .err (.UndefinedSymbol method_name SourceLocation.unknown)
        | _ => .err (.InvalidOperation SourceLocation.unknown
            ("Cannot call method " ++ mc.method ++ " on non-struct type "
              ++ chifTypeDebug objT))

/-- The argument loops of `analyze_expression` (`Call`, method calls):
analyzes each expression in order, collecting the types. -/
def analyze_expr_list : Nat → SemanticAnalyzer → List Expression →
    SRes (List ChifType)
  | 0, _, _ => .timeout
  | _ + 1, a, [] => .ok [] a
  | fuel + 1, a, e :: es =>
      match analyze_expression fuel a e with
      | .err e2 => .err e2
      | .timeout => .timeout
      | .ok t a2 =>
          match analyze_expr_list fuel a2 es with
          | .err e2 => .err e2
          | .timeout => .timeout
          | .ok ts a3 => .ok (t :: ts) a3

/-- The field-typing loop of the `Expression::StructLiteral` arm
(`semantic.rs` lines 977-1000). -/
def analyze_struct_lit_fields : Nat → SemanticAnalyzer →
    List (String × Expression) → StructDefinition → String → SRes Unit
  | 0, _, _, _, _ => .timeout
  | _ + 1, a, [], _, _ => .ok () a
  | fuel + 1, a, (fieldName, fieldExpr) :: rest, struct_def, structName =>
      match analyze_expression fuel a fieldExpr with
      | .err e2 => .err e2
      | .timeout => .timeout
      | .ok exprT a2 =>
          match struct_def.fields.find? (fun f => f.name = fieldName) with
          | some field_def =>
              if !types_compatible field_def.field_type exprT then
                .err (.TypeMismatch SourceLocation.unknown
                  field_def.field_type exprT)
              else analyze_struct_lit_fields fuel a2 rest struct_def structName
          | none =>
              .err (.InvalidOperation SourceLocation.unknown
                ("Unknown field " ++ fieldName ++ " in struct " ++ structName))

/-- The tail loop of the `Expression::ArrayLiteral` arm
(`semantic.rs` lines 1229-1238): every further element must be compatible
with the first element's type. -/
def analyze_array_rest : Nat → SemanticAnalyzer → ChifType →
    List Expression → SRes Unit
  | 0, _, _, _ => .timeout
  | _ + 1, a, _, [] => .ok () a
  | fuel + 1, a, firstT, e :: es =>
      match analyze_expression fuel a e with
      | .err e2 => .err e2
      | .timeout => .timeout
      | .ok t a2 =>
          if !types_compatible firstT t then
            .err (.TypeMismatch SourceLocation.unknown firstT t)
          else analyze_array_rest fuel a2 firstT es

/-- The index loop of the `Expression::Index` arm
(`semantic.rs` lines 1259-1270): every index must have type `Int`. -/
def analyze_indices : Nat → SemanticAnalyzer → List Expression → SRes Unit
  | 0, _, _ => .timeout
  | _ + 1, a, [] => .ok () a
  | fuel + 1, a, e :: es =>
      match analyze_expression fuel a e with
      | .err e2 => .err e2
      | .timeout => .timeout
      | .ok t a2 =>
          if t ≠ ChifType.Int then
            .err (.TypeMismatch SourceLocation.unknown .Int t)
          else analyze_indices fuel a2 es

/-- The argument loops of the `http` method arms of `analyze_expression`:
every argument must have type `Str`. -/
def analyze_http_str_args : Nat → SemanticAnalyzer → List Expression →
    SRes Unit
  | 0, _, _ => .timeout
  | _ + 1, a, [] => .ok () a
  | fuel + 1, a, e :: es =>
      match analyze_expression fuel a e with
      | .err e2 => .err e2
      | .timeout => .timeout
      | .ok t a2 =>
          if t ≠ ChifType.Str then
            .err (.TypeMismatch SourceLocation.unknown .Str t)
          else analyze_http_str_args fuel a2 es

end

mutual

/-- `semantic.rs` lines 680-779: `analyze_statement` (pass 2). -/
def analyze_statement : Nat → SemanticAnalyzer → Statement → SRes Unit
  | 0, _, _ => .timeout
  | fuel + 1, a, stmt =>
    match stmt with
    | .VarDecl vd =>
        let defineIt := fun (a2 : SemanticAnalyzer) =>
          let symbol : Symbol :=
            { name := vd.name, symbol_type := .Variable vd.var_type,
              location := SourceLocation.unknown,
              is_mutable := vd.is_mutable }
          match a2.symbol_table.define_symbol symbol with
          | .error e2 => SRes.err e2
          | .ok t => SRes.ok () { a2 with symbol_table := t }
        match vd.value with
        | some e =>
            match analyze_expression fuel a e with
            | .err e2 => .err e2
            | .timeout => .timeout
            | .ok _ a2 => defineIt a2
        | none => defineIt a
    | .Assignment asg =>
        match analyze_expression fuel a asg.target with
        | .err e2 => .err e2
        | .timeout => .timeout
        | .ok _ a2 =>
            match analyze_expression fuel a2 asg.value with
            | .err e2 => .err e2
            | .timeout => .timeout
            | .ok _ a3 => .ok () a3
    | .Expression e =>
        match analyze_expression fuel a e with
        | .err e2 => .err e2
        | .timeout => .timeout
        | .ok _ a2 => .ok () a2
    | .Return oe =>
        match oe with
        | some e =>
            match analyze_expression fuel a e with
            | .err e2 => .err e2
            | .timeout => .timeout
            | .ok _ a2 => .ok () a2
        | none => .ok () a
    | .If s =>
        match s with
        | .mk cond tb eb =>
          match analyze_expression fuel a cond with
          | .err e2 => .err e2
          | .timeout => .timeout
          | .ok _ a2 =>
            match analyze_block fuel a2 tb with
            | .err e2 => .err e2
            | .timeout => .timeout
            | .ok _ a3 =>
              match eb with
              | some b =>
                  match analyze_block fuel a3 b with
                  | .err e2 => .err e2
                  | .timeout => .timeout
                  | .ok _ a4 => .ok () a4
              | none => .ok () a3
    | .While s =>
        match s with
        | .mk cond body =>
          match analyze_expression fuel a cond with
          | .err e2 => .err e2
          | .timeout => .timeout
          | .ok _ a2 =>
            let old_in_loop := a2.in_loop
            match analyze_block fuel { a2 with in_loop := true } body with
            | .err e2 => .err e2
            | .timeout => .timeout
            | .ok _ a3 => .ok () { a3 with in_loop := old_in_loop }
    | .For s =>
        match s with
        | .mk init cond update body =>
          let a1 : SemanticAnalyzer :=
            { a with symbol_table := a.symbol_table.push_scope }
          let afterInit :=
            match init with
            | some st => analyze_statement fuel a1 st
            | none => .ok () a1
          match afterInit with
          | .err e2 => .err e2
          | .timeout => .timeout
          | .ok _ a2 =>
            let afterCond :=
              match cond with
              | some c =>
                  match analyze_expression fuel a2 c with
                  | .err e2 => SRes.err e2
                  | .timeout => SRes.timeout
                  | .ok _ a3 => SRes.ok () a3
              | none => .ok () a2
            match afterCond with
            | .err e2 => .err e2
            | .timeout => .timeout
            | .ok _ a3 =>
              let afterUpdate :=
                match update with
                | some st => analyze_statement fuel a3 st
                | none => .ok () a3
              match afterUpdate with
              | .err e2 => .err e2
              | .timeout => .timeout
              | .ok _ a4 =>
                let old_in_loop := a4.in_loop
                match analyze_block fuel { a4 with in_loop := true } body with
                | .err e2 => .err e2
                | .timeout => .timeout
                | .ok _ a5 =>
                  let a6 := { a5 with in_loop := old_in_loop }
                  match a6.symbol_table.pop_scope with
                  | .error e2 => .err e2
                  | .ok t => .ok () { a6 with symbol_table := t }
    | .Switch s =>
        match s with
        | .mk e cs d =>
          match analyze_expression fuel a e with
          | .err e2 => .err e2
          | .timeout => .timeout
          | .ok _ a2 =>
            match analyze_switch_cases fuel a2 cs with
            | .err e2 => .err e2
            | .timeout => .timeout
            | .ok _ a3 =>
              match d with
              | some b =>
                  match analyze_block fuel a3 b with
                  | .err e2 => .err e2
                  | .timeout => .timeout
                  | .ok _ a4 => .ok () a4
              | none => .ok () a3
    | .Break =>
        if !a.in_loop then .err .InvalidBreak else .ok () a
    | .Continue =>
        if !a.in_loop then .err .InvalidContinue else .ok () a

/-- The case loop of the `Statement::Switch` arm of `analyze_statement`. -/
def analyze_switch_cases : Nat → SemanticAnalyzer → List SwitchCase →
    SRes Unit
  | 0, _, _ => .timeout
  | _ + 1, a, [] => .ok () a
  | fuel + 1, a, .mk v body :: rest =>
      match analyze_expression fuel a v with
      | .err e2 => .err e2
      | .timeout => .timeout
      | .ok _ a2 =>
          match analyze_block fuel a2 body with
          | .err e2 => .err e2
          | .timeout => .timeout
          | .ok _ a3 => analyze_switch_cases fuel a3 rest

/-- `semantic.rs` lines 673-678: `analyze_block`. -/
def analyze_block : Nat → SemanticAnalyzer → Block → SRes Unit
  | 0, _, _ => .timeout
  | fuel + 1, a, .mk stmts => analyze_stmts fuel a stmts

/-- The statement loop of `analyze_block`. -/
def analyze_stmts : Nat → SemanticAnalyzer → List Statement → SRes Unit
  | 0, _, _ => .timeout
  | _ + 1, a, [] => .ok () a
  | fuel + 1, a, st :: rest =>
      match analyze_statement fuel a st with
      | .err e2 => .err e2
      | .timeout => .timeout
      | .ok _ a2 => analyze_stmts fuel a2 rest

end

mutual

/-- `semantic.rs` lines 623-671: `analyze_item` (pass 2). -/
def analyze_item : Nat → SemanticAnalyzer → Item → SRes Unit
  | 0, _, _ => .timeout
  | fuel + 1, a, item =>
    match item with
    | .Function func =>
        let a1 : SemanticAnalyzer :=
          { a with symbol_table := a.symbol_table.push_scope }
        let old_return_type := a1.current_function_return_type
        let a2 := { a1 with current_function_return_type := func.return_type }
        match define_params_analyze a2.symbol_table func.params with
        | .error e2 => .err e2
        | .ok t =>
          match analyze_block fuel { a2 with symbol_table := t } func.body with
          | .err e2 => .err e2
          | .timeout => .timeout
          | .ok _ a3 =>
            let a4 := { a3 with current_function_return_type := old_return_type }
            match a4.symbol_table.pop_scope with
            | .error e2 => .err e2
            | .ok t2 => .ok () { a4 with symbol_table := t2 }
    | .Struct _ => .ok () a
    | .StructImpl impl => analyze_impl_methods fuel a impl.methods
    | .Import _ => .ok () a

/-- The method loop of `analyze_item`'s `Item::StructImpl` arm, which
recursively analyzes each method as a function item. -/
def analyze_impl_methods : Nat → SemanticAnalyzer → List Function → SRes Unit
  | 0, _, _ => .timeout
  | _ + 1, a, [] => .ok () a
  | fuel + 1, a, m :: rest =>
      match analyze_item fuel a (.Function m) with
      | .err e2 => .err e2
      | .timeout => .timeout
      | .ok _ a2 => analyze_impl_methods fuel a2 rest

end

/-- `semantic.rs` lines 615-621: `analyze_program` (the item loop of
pass 2). -/
def analyze_items : Nat → SemanticAnalyzer → List Item → SRes Unit
  | 0, _, _ => .timeout
  | _ + 1, a, [] => .ok () a
  | fuel + 1, a, item :: rest =>
      match analyze_item fuel a item with
      | .err e2 => .err e2
      | .timeout => .timeout
      | .ok _ a2 => analyze_items fuel a2 rest

mutual

/-- `semantic.rs` lines 262-428: `check_statement_types` (pass 3). -/
def check_statement_types : Nat → SemanticAnalyzer → Option ChifType →
    Statement → SRes Unit
  | 0, _, _, _ => .timeout
  | fuel + 1, a, expected_return_type, stmt =>
    match stmt with
    | .VarDecl vd =>
        let defineIt := fun (a2 : SemanticAnalyzer) =>
          let symbol : Symbol :=
            { name := vd.name, symbol_type := .Variable vd.var_type,
              location := SourceLocation.unknown,
              is_mutable := vd.is_mutable }
          match a2.symbol_table.define_symbol symbol with
          | .error e2 => SRes.err e2
          | .ok t => SRes.ok () { a2 with symbol_table := t }
        match vd.value with
        | some e =>
            match analyze_expression fuel a e with
            | .err e2 => .err e2
            | .timeout => .timeout
            | .ok exprT a2 =>
                if !types_compatible vd.var_type exprT then
                  .err (.TypeMismatch SourceLocation.unknown vd.var_type exprT)
                else defineIt a2
        | none => defineIt a
    | .Assignment asg =>
        match analyze_expression fuel a asg.target with
        | .err e2 => .err e2
        | .timeout => .timeout
        | .ok targetT a2 =>
            match analyze_expression fuel a2 asg.value with
            | .err e2 => .err e2
            | .timeout => .timeout
            | .ok valueT a3 =>
                if !types_compatible targetT valueT then
                  .err (.TypeMismatch SourceLocation.unknown targetT valueT)
                else .ok () a3
    | .Return oe =>
        match oe with
        | some e =>
            match analyze_expression fuel a e with
            | .err e2 => .err e2
            | .timeout => .timeout
            | .ok returnT a2 =>
                match expected_return_type with
                | some expected =>
                    if !types_compatible expected returnT then
                      .err (.TypeMismatch SourceLocation.unknown expected returnT)
                    else .ok () a2
                | none => .ok () a2
        | none =>
            match expected_return_type with
            | some expected =>
                if !(expected == ChifType.Nil) then
                  .err (.TypeMismatch SourceLocation.unknown expected .Nil)
                else .ok () a
            | none => .ok () a
    | .If s =>
        match s with
        | .mk cond tb eb =>
          match analyze_expression fuel a cond with
          | .err e2 => .err e2
          | .timeout => .timeout
          | .ok condT a2 =>
            if condT ≠ ChifType.Bool then
              .err (.TypeMismatch SourceLocation.unknown .Bool condT)
            else
              match check_block_types fuel a2 expected_return_type tb with
              | .err e2 => .err e2
              | .timeout => .timeout
              | .ok _ a3 =>
                match eb with
                | some b =>
                    match check_block_types fuel a3 expected_return_type b with
                    | .err e2 => .err e2
                    | .timeout => .timeout
                    | .ok _ a4 => .ok () a4
                | none => .ok () a3
    | .While s =>
        match s with
        | .mk cond body =>
          match analyze_expression fuel a cond with
          | .err e2 => .err e2
          | .timeout => .timeout
          | .ok condT a2 =>
            if condT ≠ ChifType.Bool then
              .err (.TypeMismatch SourceLocation.unknown .Bool condT)
            else
              let old_in_loop := a2.in_loop
              match check_block_types fuel { a2 with in_loop := true }
                  expected_return_type body with
              | .err e2 => .err e2
              | .timeout => .timeout
              | .ok _ a3 => .ok () { a3 with in_loop := old_in_loop }
    | .For s =>
        match s with
        | .mk init cond update body =>
          let a1 : SemanticAnalyzer :=
            { a with symbol_table := a.symbol_table.push_scope }
          let afterInit :=
            match init with
            | some st => check_statement_types fuel a1 expected_return_type st
            | none => .ok () a1
          match afterInit with
          | .err e2 => .err e2
          | .timeout => .timeout
          | .ok _ a2 =>
            let afterCond :=
              match cond with
              | some c =>
                  match analyze_expression fuel a2 c with
                  | .err e2 => SRes.err e2
                  | .timeout => SRes.timeout
                  | .ok condT a3 =>
                      if condT ≠ ChifType.Bool then
                        SRes.err (.TypeMismatch SourceLocation.unknown
                          .Bool condT)
                      else SRes.ok () a3
              | none => .ok () a2
            match afterCond with
            | .err e2 => .err e2
            | .timeout => .timeout
            | .ok _ a3 =>
              let afterUpdate :=
                match update with
                | some st => analyze_statement fuel a3 st
                | none => .ok () a3
              match afterUpdate with
              | .err e2 => .err e2
              | .timeout => .timeout
              | .ok _ a4 =>
                let old_in_loop := a4.in_loop
                match check_block_types fuel { a4 with in_loop := true }
                    expected_return_type body with
                | .err e2 => .err e2
                | .timeout => .timeout
                | .ok _ a5 =>
                  let a6 := { a5 with in_loop := old_in_loop }
                  match a6.symbol_table.pop_scope with
                  | .error e2 => .err e2
                  | .ok t => .ok () { a6 with symbol_table := t }
    | .Switch s =>
        match s with
        | .mk e cs d =>
          match analyze_expression fuel a e with
          | .err e2 => .err e2
          | .timeout => .timeout
          | .ok switchT a2 =>
            match check_switch_cases_types fuel a2 expected_return_type
                switchT cs with
            | .err e2 => .err e2
            | .timeout => .timeout
            | .ok _ a3 =>
              match d with
              | some b =>
                  match check_block_types fuel a3 expected_return_type b with
                  | .err e2 => .err e2
                  | .timeout => .timeout
                  | .ok _ a4 => .ok () a4
              | none => .ok () a3
    | .Expression e =>
        match analyze_expression fuel a e with
        | .err e2 => .err e2
        | .timeout => .timeout
        | .ok _ a2 => .ok () a2
    | .Break =>
        if !a.in_loop then .err .InvalidBreak else .ok () a
    | .Continue =>
        if !a.in_loop then .err .InvalidContinue else .ok () a

/-- The case loop of the `Statement::Switch` arm of
`check_statement_types` (`semantic.rs` lines 394-404). -/
def check_switch_cases_types : Nat → SemanticAnalyzer → Option ChifType →
    ChifType → List SwitchCase → SRes Unit
  | 0, _, _, _, _ => .timeout
  | _ + 1, a, _, _, [] => .ok () a
  | fuel + 1, a, expected_return_type, switchT, .mk v body :: rest =>
      match analyze_expression fuel a v with
      | .err e2 => .err e2
      | .timeout => .timeout
      | .ok caseT a2 =>
          if !types_compatible switchT caseT then
            .err (.TypeMismatch SourceLocation.unknown switchT caseT)
          else
            match check_block_types fuel a2 expected_return_type body with
            | .err e2 => .err e2
            | .timeout => .timeout
            | .ok _ a3 =>
                check_switch_cases_types fuel a3 expected_return_type
                  switchT rest

/-- `semantic.rs` lines 255-260: `check_block_types`. -/
def check_block_types : Nat → SemanticAnalyzer → Option ChifType → Block →
    SRes Unit
  | 0, _, _, _ => .timeout
  | fuel + 1, a, expected_return_type, .mk stmts =>
      check_stmts_types fuel a expected_return_type stmts

/-- The statement loop of `check_block_types`. -/
def check_stmts_types : Nat → SemanticAnalyzer → Option ChifType →
    List Statement → SRes Unit
  | 0, _, _, _ => .timeout
  | _ + 1, a, _, [] => .ok () a
  | fuel + 1, a, expected_return_type, st :: rest =>
      match check_statement_types fuel a expected_return_type st with
      | .err e2 => .err e2
      | .timeout => .timeout
      | .ok _ a2 => check_stmts_types fuel a2 expected_return_type rest

end

mutual

/-- `semantic.rs` lines 197-253: `check_item_types` (pass 3): type-checks a
function body and then enforces return coverage via the lines-222-232 check
(`return_coverage_check`). -/
def check_item_types : Nat → SemanticAnalyzer → Item → SRes Unit
  | 0, _, _ => .timeout
  | fuel + 1, a, item =>
    match item with
    | .Function func =>
        let a1 : SemanticAnalyzer :=
          { a with symbol_table := a.symbol_table.push_scope }
        let old_return_type := a1.current_function_return_type
        let a2 := { a1 with current_function_return_type := func.return_type }
        match define_params_check a2.symbol_table func.params with
        | .error e2 => .err e2
        | .ok t =>
          match check_block_types fuel { a2 with symbol_table := t }
              func.return_type func.body with
          | .err e2 => .err e2
          | .timeout => .timeout
          | .ok _ a3 =>
            match return_coverage_check func with
            | .error e2 => .err e2
            | .ok _ =>
              let a4 :=
                { a3 with current_function_return_type := old_return_type }
              match a4.symbol_table.pop_scope with
              | .error e2 => .err e2
              | .ok t2 => .ok () { a4 with symbol_table := t2 }
    | .Struct _ => .ok () a
    | .StructImpl impl => check_impl_methods fuel a impl.methods
    | .Import _ => .ok () a

/-- The method loop of `check_item_types`'s `Item::StructImpl` arm. -/
def check_impl_methods : Nat → SemanticAnalyzer → List Function → SRes Unit
  | 0, _, _ => .timeout
  | _ + 1, a, [] => .ok () a
  | fuel + 1, a, m :: rest =>
      match check_item_types fuel a (.Function m) with
      | .err e2 => .err e2
      | .timeout => .timeout
      | .ok _ a2 => check_impl_methods fuel a2 rest

end

/-- `semantic.rs` lines 190-195: `check_types` (the item loop of pass 3). -/
def check_items_types : Nat → SemanticAnalyzer → List Item → SRes Unit
  | 0, _, _ => .timeout
  | _ + 1, a, [] => .ok () a
  | fuel + 1, a, item :: rest =>
      match check_item_types fuel a item with
      | .err e2 => .err e2
      | .timeout => .timeout
      | .ok _ a2 => check_items_types fuel a2 rest

/-- `semantic.rs` lines 1750-1754: `struct AnalyzedProgram`. -/
structure AnalyzedProgram : Type where
  items : List Item

/-- `semantic.rs` lines 526-539: `SemanticAnalyzer::analyze` — the three-pass
pipeline: definition collection (with builtin seeding), program analysis,
type checking. -/
def analyze (fuel : Nat) (a : SemanticAnalyzer) (program : Program) :
    SRes AnalyzedProgram :=
  match collect_definitions a program with
  | .error e2 => .err e2
  | .ok a2 =>
      match analyze_items fuel a2 program.items with
      | .err e2 => .err e2
      | .timeout => .timeout
      | .ok _ a3 =>
          match check_items_types fuel a3 program.items with
          | .err e2 => .err e2
          | .timeout => .timeout
          | .ok _ a4 => .ok { items := program.items } a4

/-! ### Interpreter (`interpreter.rs`) -/

/-- `interpreter.rs`: `struct Module`. -/
structure Module : Type where
  functions : List (String × Function)
  structs : List (String × StructDef)

/-- `interpreter.rs` lines 8-15: the interpreter's mutable state, plus the
`output` trace of lines printed by `con.out` (the observable effect of
`println!`).

`locals` is the Rust `Vec<HashMap<String, ChifValue>>` with the INNERMOST
scope FIRST: Rust pushes/pops/mutates at the vector's end and searches with
`iter().rev()`, so the list head corresponds to the vector's last element,
`push` is cons, `pop` is tail, and the `rev()` search is plain left-to-right
traversal. -/
structure InterpState : Type where
  globals : List (String × ChifValue)
  locals : List (List (String × ChifValue))
  functions : List (String × Function)
  structs : List (String × StructDef)
  struct_methods : List (String × List Function)
  modules : List (String × Module)
  output : List String

/-- `interpreter.rs` lines 24-41: `Interpreter::new` — the globals start with
the `con` console pseudo-record. -/
def InterpState.new : InterpState :=
  { globals := [("con", .Struct "Console"
      [("out", .Str "console_out"), ("in", .Str "console_in")])],
    locals := [], functions := [], structs := [], struct_methods := [],
    modules := [], output := [] }

/-- Outcome of one interpreter operation.  `err` carries the state because
the Rust interpreter mutates through `&mut self`, so mutations made before an
`Err` survive and are visible to any catcher (the loop statements catch
`Break`/`Continue`, `call_function` catches `Return`).  `panic` is a host
panic (process abort), `unsupported` marks host I/O outside the model (RNG,
HTTP, stdin), and `timeout` is the fuel-exhaustion artifact of the
embedding; none of the three carries a state because execution does not
continue past them. -/
inductive Step (α : Type) : Type where
  | ok : α → InterpState → Step α
  | err : ChifError → InterpState → Step α
  | panic : String → Step α
  | unsupported : String → Step α
  | timeout : Step α

/-- The `for scope in self.locals.iter().rev()` search of `get_variable`
(innermost scope first; list head is innermost). -/
def lookup_locals : List (List (String × ChifValue)) → String →
    Option ChifValue
  | [], _ => none
  | sc :: rest, n =>
      match alGet sc n with
      | some v => some v
      | none => lookup_locals rest n

/-- `interpreter.rs` lines 995-1011: `get_variable` — locals innermost-out,
then globals. -/
def get_variable (st : InterpState) (name : String) :
    Except ChifError ChifValue :=
  match lookup_locals st.locals name with
  | some v => .ok v
  | none =>
      match alGet st.globals name with
      | some v => .ok v
      | none => .error (.VariableNotFound name)

/-- `interpreter.rs` lines 1013-1020: `set_variable` — unconditionally
inserts into the INNERMOST local scope (`locals.last_mut()`), or into the
globals when no local scope exists.  It never searches enclosing scopes. -/
def set_variable (st : InterpState) (name : String) (v : ChifValue) :
    InterpState :=
  match st.locals with
  | sc :: rest => { st with locals := alInsert sc name v :: rest }
  | [] => { st with globals := alInsert st.globals name v }

/-- Rust `i as usize` for `i : i64` (a wrapping cast, never a panic). -/
def i64AsUsize (i : Int) : Nat := (i.emod ((2 : Int) ^ 64)).toNat

/-- `interpreter.rs` lines 1022-1051: `get_index`. -/
def get_index (object index : ChifValue) : Except ChifError ChifValue :=
  match object, index with
  | .Array arr, .Int i =>
      let idx := i64AsUsize i
      match arr.get? idx with
      | some v => .ok v
      | none => .error (.IndexOutOfBounds idx)
  | .List l, .Int i =>
      let idx := i64AsUsize i
      match l.get? idx with
      | some v => .ok v
      | none => .error (.IndexOutOfBounds idx)
  | .Map m, .Str key =>
      match alGet m key with
      | some v => .ok v
      | none => .ok .Nil
  | _, _ => .error (.RuntimeError "Invalid index operation")

/-- `interpreter.rs` lines 1053-1068: `get_field`. -/
def get_field (object : ChifValue) (field : String) :
    Except ChifError ChifValue :=
  match object with
  | .Struct _ fields =>
      match alGet fields field with
      | some v => .ok v
      | none => .error (.RuntimeError ("Field " ++ field ++ " not found"))
  | _ => .error (.RuntimeError "Cannot access field on non-struct value")

/-- `interpreter.rs` lines 1070-1074: `assign_to_index` — a stubbed no-op in
the source ("simplified implementation"): it returns `Ok(())` without
changing anything. -/
def assign_to_index (st : InterpState) (_ia : IndexAccess) (_v : ChifValue) :
    Step Unit :=
  .ok () st

/-- `interpreter.rs` lines 1076-1080: `assign_to_field` — likewise a stubbed
no-op in the source: field assignments do not modify the record. -/
def assign_to_field (st : InterpState) (_fa : FieldAccess) (_v : ChifValue) :
    Step Unit :=
  .ok () st

/-- `interpreter.rs` lines 1082-1091: `is_truthy`. -/
def is_truthy : ChifValue → Bool
  | .Bool b => b
  | .Nil => false
  | .Int i => i ≠ 0
  | .Float f => f ≠ 0
  | .Str s => !s.isEmpty
  | _ => true

/-- `interpreter.rs` lines 1275-1284: `values_equal` (float equality is the
epsilon comparison). -/
def values_equal : ChifValue → ChifValue → Bool
  | .Int l, .Int r => l = r
  | .Float l, .Float r => |l - r| < f64Epsilon
  | .Str l, .Str r => l = r
  | .Bool l, .Bool r => l = r
  | .Nil, .Nil => true
  | _, _ => false

/-- Rendering of a rational standing in for Rust's `Display` of `f64`.  The
two formats differ textually; no theorem prints a float. -/
def floatDisplay (q : F64) : String :=
  if q.den = 1 then toString q.num
  else toString q.num ++ "/" ++ toString q.den

mutual

/-- `types.rs` lines 62-106: the `Display` implementation of `ChifValue`
(`value.to_string()` in the interpreter). -/
def chifValueToString : ChifValue → String
  | .Int i => toString i
  | .Float f => floatDisplay f
  | .Str s => s
  | .Bool b => toString b
  | .Nil => "nil"
  | .Array arr => "[" ++ joinValues arr ++ "]"
  | .List l => "[" ++ joinValues l ++ "]"
  | .Map m => "\x7b" ++ joinMapEntries m ++ "\x7d"
  | .Struct name fields =>
      name ++ " \x7b " ++ joinStructFields fields ++ " \x7d"
  | .Pointer v => "&" ++ chifValueToString v
  | .Reference n => "&" ++ n

/-- Comma-joined element rendering for arrays/lists. -/
def joinValues : List ChifValue → String
  | [] => ""
  | v :: rest => chifValueToString v ++ joinValuesRest rest

/-- Tail of `joinValues` (elements after the first get a leading comma). -/
def joinValuesRest : List ChifValue → String
  | [] => ""
  | v :: rest => ", " ++ chifValueToString v ++ joinValuesRest rest

/-- Comma-joined `"key": value` rendering for maps. -/
def joinMapEntries : List (String × ChifValue) → String
  | [] => ""
  | (k, v) :: rest =>
      "\"" ++ k ++ "\": " ++ chifValueToString v ++ joinMapEntriesRest rest

/-- Tail of `joinMapEntries`. -/
def joinMapEntriesRest : List (String × ChifValue) → String
  | [] => ""
  | (k, v) :: rest =>
      ", " ++ "\"" ++ k ++ "\": " ++ chifValueToString v
        ++ joinMapEntriesRest rest

/-- Comma-joined `key: value` rendering for records. -/
def joinStructFields : List (String × ChifValue) → String
  | [] => ""
  | (k, v) :: rest =>
      k ++ ": " ++ chifValueToString v ++ joinStructFieldsRest rest

/-- Tail of `joinStructFields`. -/
def joinStructFieldsRest : List (String × ChifValue) → String
  | [] => ""
  | (k, v) :: rest =>
      ", " ++ k ++ ": " ++ chifValueToString v ++ joinStructFieldsRest rest

end

/-- Rust `str::contains(char)` (kernel-reducible list implementation). -/
def str_contains (s : String) (c : Char) : Bool :=
  s.data.contains c

/-- Rust `str::ends_with(&str)` (kernel-reducible list implementation). -/
def str_ends_with (s : String) (suffix : String) : Bool :=
  suffix.data.isSuffixOf s.data

/-- Rust slicing `&expr[..expr.len()-n]` (drop the last `n` characters). -/
def str_drop_right (s : String) (n : Nat) : String :=
  String.mk (s.data.take (s.data.length - n))

/-- Rust `str::split(char)` on the character list: splits at every separator,
keeping empty groups (so `"."` splits into two empty strings). -/
def split_on_char (c : Char) : List Char → List (List Char)
  | [] => [[]]
  | a :: rest =>
      if a = c then [] :: split_on_char c rest
      else
        match split_on_char c rest with
        | [] => [[a]]
        | g :: gs => (a :: g) :: gs

/-- Rust `expr.split('.').collect::<Vec<&str>>()`. -/
def str_split_dot (s : String) : List String :=
  (split_on_char '.' s.data).map String.mk

/-- First (char) index of `c` in `chars`, or the length when absent — the
model of Rust `str::find` composed with `unwrap_or(expr.len())`
(`interpreter.rs` line 823; for the ASCII expressions of interpolation
placeholders, byte and char indices coincide). -/
def charIndexOrLen (chars : List Char) (c : Char) : Nat :=
  match chars with
  | [] => 0
  | c2 :: rest => if c2 = c then 0 else charIndexOrLen rest c + 1

/-- Digit-run parser underlying the model of `str::parse::<i64>`. -/
def digits_to_nat_go (acc : Nat) : List Char → Option Nat
  | [] => some acc
  | c :: rest =>
      if c.isDigit then digits_to_nat_go (acc * 10 + (c.toNat - 48)) rest
      else none

/-- Nonempty all-digit run to a number. -/
def digits_to_nat : List Char → Option Nat
  | [] => none
  | ds => digits_to_nat_go 0 ds

/-- Model of Rust `str::parse::<i64>` as used for interpolation indices: an
optional sign followed by a nonempty digit run.  (Values beyond the `i64`
range would overflow-error in Rust; the unbounded model ignores that case,
which no claim exercises.) -/
def parse_i64 (s : String) : Option Int :=
  match s.data with
  | '-' :: ds => (digits_to_nat ds).map (fun n => -(n : Int))
  | '+' :: ds => (digits_to_nat ds).map (fun n => (n : Int))
  | ds => (digits_to_nat ds).map (fun n => (n : Int))

/-- The field-chain fold of the simple-field-access branch of
`evaluate_interpolation_expression` (`interpreter.rs` lines 876-883). -/
def fold_get_fields (obj : ChifValue) : List String →
    Except ChifError ChifValue
  | [] => .ok obj
  | f :: fs =>
      match get_field obj f with
      | .error e => .error e
      | .ok v => fold_get_fields v fs

/-- `dropWhile` never lengthens a list (termination helper). -/
theorem dropWhile_length_le {α : Type} (l : List α) (p : α → Bool) :
    (l.dropWhile p).length ≤ l.length := by
  induction l with
  | nil => simp [List.dropWhile]
  | cons a t ih =>
      simp only [List.dropWhile]
      cases p a
      · simp
      · simp only []
        calc (t.dropWhile p).length ≤ t.length := ih
          _ ≤ (a :: t).length := by simp

/-- The position loop of the mixed indexing/field branch of
`evaluate_interpolation_expression` (`interpreter.rs` lines 831-867),
re-expressed over the remaining character suffix (the source advances an
index into the same character vector).  `expr` is the full expression text,
used only in error messages. -/
def interp_chain_walk (expr : String) (current : ChifValue) :
    List Char → Except ChifError ChifValue
  | [] => .ok current
  | '[' :: rest =>
      let idxChars := rest.takeWhile (fun c => c ≠ ']')
      match h : rest.dropWhile (fun c => c ≠ ']') with
      | [] => .error (.RuntimeError
          ("Unclosed bracket in expression: " ++ expr))
      | _ :: rest3 =>
          match parse_i64 (String.mk idxChars) with
          | none => .error (.RuntimeError
              ("Invalid array index: " ++ String.mk idxChars))
          | some i =>
              match get_index current (.Int i) with
              | .error e => .error e
              | .ok v => interp_chain_walk expr v rest3
  | '.' :: rest =>
      let fieldChars := rest.takeWhile (fun c => !(c = '.') && !(c = '['))
      match get_field current (String.mk fieldChars) with
      | .error e => .error e
      | .ok v =>
          interp_chain_walk expr v (rest.dropWhile (fun c => !(c = '.') && !(c = '[')))
  | _ :: rest => interp_chain_walk expr current rest
termination_by chars => chars.length
decreasing_by
· have hle := dropWhile_length_le rest (fun c => c ≠ ']')
  rw [h] at hle
  simp only [List.length_cons] at hle ⊢
  omega
· have hle := dropWhile_length_le rest
    (fun c => !(c = '.' : Bool) && !(c = '[' : Bool))
  simp only [List.length_cons]
  omega
· simp only [List.length_cons]
  omega

/-- The `{`-to-`}` scan of `interpolate_string` (`interpreter.rs` lines
761-771): the placeholder text up to the first `}` and the remainder after
it, or `none` when the brace is unclosed. -/
def split_placeholder : List Char → Option (List Char × List Char)
  | [] => none
  | '}' :: rest => some ([], rest)
  | c :: rest =>
      match split_placeholder rest with
      | some (nameChars, remainder) => some (c :: nameChars, remainder)
      | none => none

/-- The parameter-binding loop of `call_function`
(`interpreter.rs` lines 98-101). -/
def bind_params : List Parameter → List ChifValue →
    List (String × ChifValue)
  | p :: ps, v :: vs => alInsert (bind_params ps vs) p.name v
  | _, _ => []

/-- The reference-argument scan of `call_function_with_references`
(`interpreter.rs` lines 1299-1306): pairs `(parameter index, variable name)`
for each syntactic `&name` argument. -/
def collect_var_refs (i : Nat) : List Expression → List (Nat × String)
  | [] => []
  | .Reference inner :: rest =>
      match inner with
      | .Identifier var_name => (i, var_name) :: collect_var_refs (i + 1) rest
      | _ => collect_var_refs (i + 1) rest
  | _ :: rest => collect_var_refs (i + 1) rest

/-- The write-back extraction of `call_function_with_references`
(`interpreter.rs` lines 1321-1331): for each recorded reference argument,
pair the outer variable with the parameter's final value in the (still
pushed) call scope. -/
def collect_ref_updates (params : List Parameter)
    (scope : List (String × ChifValue)) :
    List (Nat × String) → List (String × ChifValue)
  | [] => []
  | (idx, var_name) :: rest =>
      match params.get? idx with
      | some param =>
          match alGet scope param.name with
          | some v => (var_name, v) :: collect_ref_updates params scope rest
          | none => collect_ref_updates params scope rest
      | none => collect_ref_updates params scope rest

/-- `Vec::insert` (`list.insert(idx, v)`). -/
def list_insert_at {α : Type} (l : List α) (idx : Nat) (v : α) : List α :=
  l.take idx ++ v :: l.drop idx

/-- `Vec::remove` (`list.remove(idx)`), dropping the removed element. -/
def list_remove_at {α : Type} (l : List α) (idx : Nat) : List α :=
  l.take idx ++ l.drop (idx + 1)

/-- `struct_methods.entry(name).or_insert_with(Vec::new).extend(methods)`
(`interpreter.rs` lines 56-61). -/
def sm_extend (sm : List (String × List Function)) (name : String)
    (methods : List Function) : List (String × List Function) :=
  match alGet sm name with
  | some existing => alInsert sm name (existing ++ methods)
  | none => alInsert sm name methods

/-- The merge fold at the end of the `Statement::For` arm
(`interpreter.rs` lines 233-237): every binding of the finished loop scope is
inserted into the parent scope.  (Rust iterates the HashMap in unspecified
order; since the keys are distinct, the resulting map does not depend on the
order, and the model fixes association-list order.) -/
def merge_scope (parent : List (String × ChifValue)) :
    List (String × ChifValue) → List (String × ChifValue)
  | [] => parent
  | (n, v) :: rest => merge_scope (alInsert parent n v) rest

mutual

/-- `interpreter.rs` lines 298-611: `evaluate_expression`. -/
def evaluate_expression : Nat → InterpState → Expression → Step ChifValue
  | 0, _, _ => .timeout
  | fuel + 1, st, e =>
    match e with
    | .Literal v =>
        match v with
        | .Str s =>
            match interpolate_string fuel st s with
            | .ok interpolated st2 => .ok (.Str interpolated) st2
            | .err e2 st2 => .err e2 st2
            | .panic m => .panic m
            | .unsupported m => .unsupported m
            | .timeout => .timeout
        | _ => .ok v st
    | .Identifier name =>
        if name = "randi" then .ok (.Str "randi") st
        else if name = "randf" then .ok (.Str "randf") st
        else if name = "rands" then .ok (.Str "rands") st
        else
          match get_variable st name with
          | .ok v => .ok v st
          | .error e2 => .err e2 st
    | .Binary bop =>
        match bop with
        | .mk l op r =>
          match evaluate_expression fuel st l with
          | .ok lv st2 =>
              match evaluate_expression fuel st2 r with
              | .ok rv st3 =>
                  match apply_binary_op op lv rv with
                  | .ok v => .ok v st3
                  | .err e2 => .err e2 st3
                  | .panic m => .panic m
              | .err e2 st3 => .err e2 st3
              | .panic m => .panic m
              | .unsupported m => .unsupported m
              | .timeout => .timeout
          | .err e2 st2 => .err e2 st2
          | .panic m => .panic m
          | .unsupported m => .unsupported m
          | .timeout => .timeout
    | .Unary uop =>
        match uop with
        | .mk op operand =>
          match evaluate_expression fuel st operand with
          | .ok v st2 =>
              match apply_unary_op op v with
              | .ok v2 => .ok v2 st2
              | .err e2 => .err e2 st2
              | .panic m => .panic m
          | .err e2 st2 => .err e2 st2
          | .panic m => .panic m
          | .unsupported m => .unsupported m
          | .timeout => .timeout
    | .Call call =>
        if call.name = "randi" then
          match call.args with
          | [e1, e2] =>
              match evaluate_expression fuel st e1 with
              | .ok minV st2 =>
                  match evaluate_expression fuel st2 e2 with
                  | .ok maxV st3 =>
                      match minV, maxV with
                      | .Int a, .Int b =>
                          if a > b then
                            .err (.RuntimeError
                              "randi: min cannot be greater than max") st3
                          else .unsupported "randi samples the thread RNG"
                      | _, _ =>
                          .err (.RuntimeError
                            "randi expects integer arguments") st3
                  | other => other
              | .err e2 st2 => .err e2 st2
              | .panic m => .panic m
              | .unsupported m => .unsupported m
              | .timeout => .timeout
          | _ => .err (.RuntimeError "randi expects 2 arguments") st
        else if call.name = "randf" then
          match call.args with
          | [e1, e2] =>
              match evaluate_expression fuel st e1 with
              | .ok minV st2 =>
                  match evaluate_expression fuel st2 e2 with
                  | .ok maxV st3 =>
                      match minV, maxV with
                      | .Float a, .Float b =>
                          if a > b then
                            .err (.RuntimeError
                              "randf: min cannot be greater than max") st3
                          else .unsupported "randf samples the thread RNG"
                      | _, _ =>
                          .err (.RuntimeError
                            "randf expects float arguments") st3
                  | other => other
              | .err e2 st2 => .err e2 st2
              | .panic m => .panic m
              | .unsupported m => .unsupported m
              | .timeout => .timeout
          | _ => .err (.RuntimeError "randf expects 2 arguments") st
        else if call.name = "rands" then
          match call.args with
          | [e1, e2] =>
              match evaluate_expression fuel st e1 with
              | .ok fromV st2 =>
                  match evaluate_expression fuel st2 e2 with
                  | .ok toV st3 =>
                      match fromV, toV with
                      | .Str fromS, .Str toS =>
                          if fromS.length ≠ 1 ∨ toS.length ≠ 1 then
                            .err (.RuntimeError
                              "rands expects single character strings") st3
                          else .unsupported "rands samples the thread RNG"
                      | _, _ =>
                          .err (.RuntimeError
                            "rands expects string arguments") st3
                  | other => other
              | .err e2 st2 => .err e2 st2
              | .panic m => .panic m
              | .unsupported m => .unsupported m
              | .timeout => .timeout
          | _ => .err (.RuntimeError "rands expects 2 arguments") st
        else if call.name = "http_get" ∨ call.name = "http_delete" then
          match call.args with
          | [e1] =>
              match evaluate_expression fuel st e1 with
              | .ok urlV st2 =>
                  match urlV with
                  | .Str _ => .unsupported "HTTP requests leave the model"
                  | _ => .err (.RuntimeError
                      (call.name ++ " expects string URL")) st2
              | other => other
          | _ => .err (.RuntimeError (call.name ++ " expects 1 argument")) st
        else if call.name = "http_post" ∨ call.name = "http_put" then
          match call.args with
          | [e1, e2] =>
              match evaluate_expression fuel st e1 with
              | .ok urlV st2 =>
                  match evaluate_expression fuel st2 e2 with
                  | .ok bodyV st3 =>
                      match urlV, bodyV with
                      | .Str _, .Str _ =>
                          .unsupported "HTTP requests leave the model"
                      | _, _ => .err (.RuntimeError
                          (call.name ++ " expects string arguments")) st3
                  | other => other
              | .err e2 st2 => .err e2 st2
              | .panic m => .panic m
              | .unsupported m => .unsupported m
              | .timeout => .timeout
          | _ => .err (.RuntimeError (call.name ++ " expects 2 arguments")) st
        else
          match eval_expr_args fuel st call.args with
          | .ok vals st2 =>
              match alGet st2.functions call.name with
              | some func =>
                  if call.args.any (fun a =>
                      match a with
                      | .Reference _ => true
                      | _ => false) then
                    call_function_with_references fuel st2 func vals call.args
                  else call_function fuel st2 func vals
              | none => .err (.FunctionNotFound call.name) st2
          | .err e2 st2 => .err e2 st2
          | .panic m => .panic m
          | .unsupported m => .unsupported m
          | .timeout => .timeout
    | .MethodCall mc =>
        match mc.object with
        | .Identifier module_name =>
            match alGet st.modules module_name with
            | some module =>
                match alGet module.functions mc.method with
                | some func =>
                    match eval_expr_args fuel st mc.args with
                    | .ok vals st2 => call_function fuel st2 func vals
                    | .err e2 st2 => .err e2 st2
                    | .panic m => .panic m
                    | .unsupported m => .unsupported m
                    | .timeout => .timeout
                | none =>
                    .err (.FunctionNotFound
                      (module_name ++ "." ++ mc.method)) st
            | none =>
                if mc.method = "add" ∨ mc.method = "addAt" ∨
                    mc.method = "del" then
                  call_mutable_method fuel st module_name mc.method mc.args
                else
                  match get_variable st module_name with
                  | .error e2 => .err e2 st
                  | .ok object =>
                      match object with
                      | .Struct struct_name _ =>
                          match alGet st.struct_methods struct_name with
                          | some methods =>
                              if methods.any (fun m => m.name = mc.method) then
                                call_mutable_struct_method fuel st module_name
                                  mc.method mc.args
                              else eval_object_and_call_method fuel st mc
                          | none => eval_object_and_call_method fuel st mc
                      | _ => eval_object_and_call_method fuel st mc
        | _ => eval_object_and_call_method fuel st mc
    | .Index ia =>
        match evaluate_expression fuel st ia.object with
        | .ok object st2 => eval_indices_fold fuel st2 object ia.indices
        | .err e2 st2 => .err e2 st2
        | .panic m => .panic m
        | .unsupported m => .unsupported m
        | .timeout => .timeout
    | .FieldAccess fa =>
        match evaluate_expression fuel st fa.object with
        | .ok object st2 =>
            match get_field object fa.field with
            | .ok v => .ok v st2
            | .error e2 => .err e2 st2
        | .err e2 st2 => .err e2 st2
        | .panic m => .panic m
        | .unsupported m => .unsupported m
        | .timeout => .timeout
    | .ArrayLiteral elems =>
        match eval_expr_args fuel st elems with
        | .ok vals st2 => .ok (.Array vals) st2
        | .err e2 st2 => .err e2 st2
        | .panic m => .panic m
        | .unsupported m => .unsupported m
        | .timeout => .timeout
    | .MapLiteral pairs => eval_map_pairs fuel st [] pairs
    | .StructLiteral sl => eval_struct_fields fuel st sl.struct_name [] sl.fields
    | .Reference inner =>
        match inner with
        | .Identifier var_name => .ok (.Reference var_name) st
        | _ =>
            match evaluate_expression fuel st inner with
            | .ok v st2 => .ok (.Pointer v) st2
            | .err e2 st2 => .err e2 st2
            | .panic m => .panic m
            | .unsupported m => .unsupported m
            | .timeout => .timeout
    | .Dereference inner =>
        match evaluate_expression fuel st inner with
        | .ok v st2 =>
            match v with
            | .Pointer p => .ok p st2
            | .Reference var_name =>
                match get_variable st2 var_name with
                | .ok v2 => .ok v2 st2
                | .error e2 => .err e2 st2
            | _ => .err (.RuntimeError
                "Cannot dereference non-pointer value") st2
        | .err e2 st2 => .err e2 st2
        | .panic m => .panic m
        | .unsupported m => .unsupported m
        | .timeout => .timeout

/-- The fall-through tail of the `Expression::MethodCall` arm
(`interpreter.rs` lines 536-537): evaluate the receiver, then dispatch. -/
def eval_object_and_call_method : Nat → InterpState → MethodCall →
    Step ChifValue
  | 0, _, _ => .timeout
  | fuel + 1, st, mc =>
      match evaluate_expression fuel st mc.object with
      | .ok object st2 => call_method fuel st2 object mc.method mc.args
      | .err e2 st2 => .err e2 st2
      | .panic m => .panic m
      | .unsupported m => .unsupported m
      | .timeout => .timeout

/-- The argument-evaluation loops of `evaluate_expression`
(`Call`, method calls, array literals): left-to-right evaluation collecting
the values. -/
def eval_expr_args : Nat → InterpState → List Expression →
    Step (List ChifValue)
  | 0, _, _ => .timeout
  | _ + 1, st, [] => .ok [] st
  | fuel + 1, st, e :: es =>
      match evaluate_expression fuel st e with
      | .ok v st2 =>
          match eval_expr_args fuel st2 es with
          | .ok vs st3 => .ok (v :: vs) st3
          | .err e2 st3 => .err e2 st3
          | .panic m => .panic m
          | .unsupported m => .unsupported m
          | .timeout => .timeout
      | .err e2 st2 => .err e2 st2
      | .panic m => .panic m
      | .unsupported m => .unsupported m
      | .timeout => .timeout

/-- The index fold of the `Expression::Index` arm
(`interpreter.rs` lines 539-548). -/
def eval_indices_fold : Nat → InterpState → ChifValue → List Expression →
    Step ChifValue
  | 0, _, _, _ => .timeout
  | _ + 1, st, current, [] => .ok current st
  | fuel + 1, st, current, e :: es =>
      match evaluate_expression fuel st e with
      | .ok idx st2 =>
          match get_index current idx with
          | .ok v => eval_indices_fold fuel st2 v es
          | .error e2 => .err e2 st2
      | .err e2 st2 => .err e2 st2
      | .panic m => .panic m
      | .unsupported m => .unsupported m
      | .timeout => .timeout

/-- The pair loop of the `Expression::MapLiteral` arm
(`interpreter.rs` lines 563-577): keys must evaluate to strings. -/
def eval_map_pairs : Nat → InterpState → List (String × ChifValue) →
    List (Expression × Expression) → Step ChifValue
  | 0, _, _, _ => .timeout
  | _ + 1, st, acc, [] => .ok (.Map acc) st
  | fuel + 1, st, acc, (ke, ve) :: rest =>
      match evaluate_expression fuel st ke with
      | .ok kv st2 =>
          match evaluate_expression fuel st2 ve with
          | .ok vv st3 =>
              match kv with
              | .Str key => eval_map_pairs fuel st3 (alInsert acc key vv) rest
              | _ => .err (.RuntimeError "Map keys must be strings") st3
          | .err e2 st3 => .err e2 st3
          | .panic m => .panic m
          | .unsupported m => .unsupported m
          | .timeout => .timeout
      | .err e2 st2 => .err e2 st2
      | .panic m => .panic m
      | .unsupported m => .unsupported m
      | .timeout => .timeout

/-- The field loop of the `Expression::StructLiteral` arm
(`interpreter.rs` lines 579-586). -/
def eval_struct_fields : Nat → InterpState → String →
    List (String × ChifValue) → List (String × Expression) → Step ChifValue
  | 0, _, _, _, _ => .timeout
  | _ + 1, st, structName, acc, [] => .ok (.Struct structName acc) st
  | fuel + 1, st, structName, acc, (fname, fe) :: rest =>
      match evaluate_expression fuel st fe with
      | .ok fv st2 =>
          eval_struct_fields fuel st2 structName (alInsert acc fname fv) rest
      | .err e2 st2 => .err e2 st2
      | .panic m => .panic m
      | .unsupported m => .unsupported m
      | .timeout => .timeout

/-- `interpreter.rs` lines 123-296: `execute_statement`. -/
def execute_statement : Nat → InterpState → Statement → Step Unit
  | 0, _, _ => .timeout
  | fuel + 1, st, stmt =>
    match stmt with
    | .VarDecl vd =>
        match vd.value with
        | some e =>
            match evaluate_expression fuel st e with
            | .ok val st2 =>
                let val2 :=
                  match vd.var_type, val with
                  | .List _ _, .Array arr => ChifValue.List arr
                  | _, _ => val
                .ok () (set_variable st2 vd.name val2)
            | .err e2 st2 => .err e2 st2
            | .panic m => .panic m
            | .unsupported m => .unsupported m
            | .timeout => .timeout
        | none => .ok () (set_variable st vd.name .Nil)
    | .Assignment asg =>
        match evaluate_expression fuel st asg.value with
        | .ok value st2 =>
            match asg.target with
            | .Identifier name => .ok () (set_variable st2 name value)
            | .Index ia => assign_to_index st2 ia value
            | .FieldAccess fa => assign_to_field st2 fa value
            | _ => .err (.RuntimeError "Invalid assignment target") st2
        | .err e2 st2 => .err e2 st2
        | .panic m => .panic m
        | .unsupported m => .unsupported m
        | .timeout => .timeout
    | .Expression e =>
        match evaluate_expression fuel st e with
        | .ok _ st2 => .ok () st2
        | .err e2 st2 => .err e2 st2
        | .panic m => .panic m
        | .unsupported m => .unsupported m
        | .timeout => .timeout
    | .If s =>
        match s with
        | .mk cond tb eb =>
          match evaluate_expression fuel st cond with
          | .ok condV st2 =>
              if is_truthy condV then execute_block fuel st2 tb
              else
                match eb with
                | some b => execute_block fuel st2 b
                | none => .ok () st2
          | .err e2 st2 => .err e2 st2
          | .panic m => .panic m
          | .unsupported m => .unsupported m
          | .timeout => .timeout
    | .For s =>
        let st1 := { st with locals := [] :: st.locals }
        let afterInit :=
          match s.init with
          | some initStmt => execute_statement fuel st1 initStmt
          | none => .ok () st1
        match afterInit with
        | .ok _ st2 =>
            let lsi := st2.locals.length - 1
            match for_loop fuel st2 s lsi with
            | .ok _ st3 =>
                match st3.locals with
                | loop_scope :: rest =>
                    match rest with
                    | parent :: rest2 =>
                        .ok () { st3 with
                          locals := merge_scope parent loop_scope :: rest2 }
                    | [] => .ok () { st3 with locals := [] }
                | [] => .ok () { st3 with locals := [[]] }
            | .err e2 st3 => .err e2 st3
            | .panic m => .panic m
            | .unsupported m => .unsupported m
            | .timeout => .timeout
        | .err e2 st2 => .err e2 st2
        | .panic m => .panic m
        | .unsupported m => .unsupported m
        | .timeout => .timeout
    | .While s => while_loop fuel st s
    | .Switch s =>
        match s with
        | .mk e cs d =>
          match evaluate_expression fuel st e with
          | .ok switchV st2 =>
              match switch_exec_cases fuel st2 switchV cs with
              | .ok matched st3 =>
                  if matched then .ok () st3
                  else
                    match d with
                    | some b => execute_block fuel st3 b
                    | none => .ok () st3
              | .err e2 st3 => .err e2 st3
              | .panic m => .panic m
              | .unsupported m => .unsupported m
              | .timeout => .timeout
          | .err e2 st2 => .err e2 st2
          | .panic m => .panic m
          | .unsupported m => .unsupported m
          | .timeout => .timeout
    | .Return oe =>
        match oe with
        | some e =>
            match evaluate_expression fuel st e with
            | .ok v st2 => .err (.Return v) st2
            | .err e2 st2 => .err e2 st2
            | .panic m => .panic m
            | .unsupported m => .unsupported m
            | .timeout => .timeout
        | none => .err (.Return .Nil) st
    | .Break => .err .Break st
    | .Continue => .err .Continue st

/-- The `loop { … }` of the `Statement::For` arm (`interpreter.rs` lines
185-222): test the condition, run the body (catching `Break`/`Continue`),
run the update, re-check the scope-structure guard, repeat. -/
def for_loop : Nat → InterpState → ForStatement → Nat → Step Unit
  | 0, _, _, _ => .timeout
  | fuel + 1, st, s, lsi =>
      let condStep : Step Bool :=
        match s.condition with
        | some c =>
            match evaluate_expression fuel st c with
            | .ok v st2 => .ok (is_truthy v) st2
            | .err e2 st2 => .err e2 st2
            | .panic m => .panic m
            | .unsupported m => .unsupported m
            | .timeout => .timeout
        | none => .ok true st
      match condStep with
      | .ok false st1 => .ok () st1
      | .ok true st1 =>
          match execute_block fuel st1 s.body with
          | .ok _ st2 =>
              let afterUpdate :=
                match s.update with
                | some u => execute_statement fuel st2 u
                | none => .ok () st2
              match afterUpdate with
              | .ok _ st3 =>
                  if lsi < st3.locals.length then for_loop fuel st3 s lsi
                  else .ok () st3
              | .err e2 st3 => .err e2 st3
              | .panic m => .panic m
              | .unsupported m => .unsupported m
              | .timeout => .timeout
          | .err .Break st2 => .ok () st2
          | .err .Continue st2 =>
              let afterUpdate :=
                match s.update with
                | some u => execute_statement fuel st2 u
                | none => .ok () st2
              match afterUpdate with
              | .ok _ st3 => for_loop fuel st3 s lsi
              | .err e2 st3 => .err e2 st3
              | .panic m => .panic m
              | .unsupported m => .unsupported m
              | .timeout => .timeout
          | .err e2 st2 => .err e2 st2
          | .panic m => .panic m
          | .unsupported m => .unsupported m
          | .timeout => .timeout
      | .err e2 st1 => .err e2 st1
      | .panic m => .panic m
      | .unsupported m => .unsupported m
      | .timeout => .timeout

/-- The `loop { … }` of the `Statement::While` arm (`interpreter.rs` lines
245-259): re-evaluate the condition each round; the body's `Break` ends the
loop, `Continue` proceeds to the next round, other errors propagate. -/
def while_loop : Nat → InterpState → WhileStatement → Step Unit
  | 0, _, _ => .timeout
  | fuel + 1, st, s =>
      match evaluate_expression fuel st s.condition with
      | .ok condV st1 =>
          if !is_truthy condV then .ok () st1
          else
            match execute_block fuel st1 s.body with
            | .ok _ st2 => while_loop fuel st2 s
            | .err .Break st2 => .ok () st2
            | .err .Continue st2 => while_loop fuel st2 s
            | .err e2 st2 => .err e2 st2
            | .panic m => .panic m
            | .unsupported m => .unsupported m
            | .timeout => .timeout
      | .err e2 st1 => .err e2 st1
      | .panic m => .panic m
      | .unsupported m => .unsupported m
      | .timeout => .timeout

/-- The case loop of the `Statement::Switch` arm (`interpreter.rs` lines
264-271); the returned flag is Rust's `matched`. -/
def switch_exec_cases : Nat → InterpState → ChifValue → List SwitchCase →
    Step Bool
  | 0, _, _, _ => .timeout
  | _ + 1, st, _, [] => .ok false st
  | fuel + 1, st, switchV, .mk cv body :: rest =>
      match evaluate_expression fuel st cv with
      | .ok caseV st2 =>
          if values_equal switchV caseV then
            match execute_block fuel st2 body with
            | .ok _ st3 => .ok true st3
            | .err e2 st3 => .err e2 st3
            | .panic m => .panic m
            | .unsupported m => .unsupported m
            | .timeout => .timeout
          else switch_exec_cases fuel st2 switchV rest
      | .err e2 st2 => .err e2 st2
      | .panic m => .panic m
      | .unsupported m => .unsupported m
      | .timeout => .timeout

/-- `interpreter.rs` lines 116-121: `execute_block`. -/
def execute_block : Nat → InterpState → Block → Step Unit
  | 0, _, _ => .timeout
  | fuel + 1, st, .mk stmts => execute_stmts fuel st stmts

/-- The statement loop of `execute_block`. -/
def execute_stmts : Nat → InterpState → List Statement → Step Unit
  | 0, _, _ => .timeout
  | _ + 1, st, [] => .ok () st
  | fuel + 1, st, s :: rest =>
      match execute_statement fuel st s with
      | .ok _ st2 => execute_stmts fuel st2 rest
      | .err e2 st2 => .err e2 st2
      | .panic m => .panic m
      | .unsupported m => .unsupported m
      | .timeout => .timeout

/-- `interpreter.rs` lines 83-114: `call_function` — arity check, bind
parameters into a fresh pushed scope, run the body, pop the scope, then
convert a `Return(value)` signal into the normal result `value`; a body that
completes without returning yields `Nil`; any other error propagates. -/
def call_function : Nat → InterpState → Function → List ChifValue →
    Step ChifValue
  | 0, _, _, _ => .timeout
  | fuel + 1, st, func, args =>
      if args.length ≠ func.params.length then
        .err (.RuntimeError
          ("Function " ++ func.name ++ " expects "
            ++ toString func.params.length ++ " arguments, got "
            ++ toString args.length)) st
      else
        let scope := bind_params func.params args
        let st1 := { st with locals := scope :: st.locals }
        let result := execute_block fuel st1 func.body
        match result with
        | .ok _ st2 => .ok .Nil { st2 with locals := st2.locals.tail }
        | .err (.Return v) st2 => .ok v { st2 with locals := st2.locals.tail }
        | .err e2 st2 => .err e2 { st2 with locals := st2.locals.tail }
        | .panic m => .panic m
        | .unsupported m => .unsupported m
        | .timeout => .timeout

/-- `interpreter.rs` lines 1286-1345: `call_function_with_references` — like
`call_function`, but records which arguments are syntactic `&name`
references and, after the body finishes, writes the final parameter values
back to the named outer variables (pop first, then `set_variable`). -/
def call_function_with_references : Nat → InterpState → Function →
    List ChifValue → List Expression → Step ChifValue
  | 0, _, _, _, _ => .timeout
  | fuel + 1, st, func, args, arg_exprs =>
      if args.length ≠ func.params.length then
        .err (.RuntimeError
          ("Function " ++ func.name ++ " expects "
            ++ toString func.params.length ++ " arguments, got "
            ++ toString args.length)) st
      else
        let var_refs := collect_var_refs 0 arg_exprs
        let scope := bind_params func.params args
        let st1 := { st with locals := scope :: st.locals }
        match execute_block fuel st1 func.body with
        | .ok _ st2 =>
            let updates := collect_ref_updates func.params
              (st2.locals.headD []) var_refs
            let st3 := { st2 with locals := st2.locals.tail }
            let st4 := updates.foldl
              (fun acc p => set_variable acc p.1 p.2) st3
            .ok .Nil st4
        | .err (.Return v) st2 =>
            let updates := collect_ref_updates func.params
              (st2.locals.headD []) var_refs
            let st3 := { st2 with locals := st2.locals.tail }
            let st4 := updates.foldl
              (fun acc p => set_variable acc p.1 p.2) st3
            .ok v st4
        | .err e2 st2 =>
            let updates := collect_ref_updates func.params
              (st2.locals.headD []) var_refs
            let st3 := { st2 with locals := st2.locals.tail }
            let st4 := updates.foldl
              (fun acc p => set_variable acc p.1 p.2) st3
            .err e2 st4
        | .panic m => .panic m
        | .unsupported m => .unsupported m
        | .timeout => .timeout

/-- `interpreter.rs` lines 613-736: `call_method` (non-intercepted method
dispatch on an already evaluated receiver). -/
def call_method : Nat → InterpState → ChifValue → String →
    List Expression → Step ChifValue
  | 0, _, _, _, _ => .timeout
  | fuel + 1, st, object, method_name, args =>
      match object with
      | .Array arr =>
          if method_name = "len" then .ok (.Int arr.length) st
          else .err (.RuntimeError
            ("Method " ++ method_name
              ++ " not supported for arrays (immutable)")) st
      | .List l =>
          if method_name = "len" then .ok (.Int l.length) st
          else if method_name = "add" then
            if args.length ≠ 1 then
              .err (.RuntimeError "add method expects 1 argument") st
            else .ok .Nil st
          else if method_name = "addAt" then
            if args.length ≠ 2 then
              .err (.RuntimeError "addAt method expects 2 arguments") st
            else .ok .Nil st
          else .err (.RuntimeError
            ("Unknown method " ++ method_name ++ " for list")) st
      | .Str s =>
          if method_name = "len" then .ok (.Int s.length) st
          else .err (.RuntimeError
            ("Unknown method " ++ method_name ++ " for string")) st
      | .Struct struct_name fields =>
          if struct_name = "Console" then
            if method_name = "out" ∧ args.length = 1 then
              match args with
              | [e1] =>
                  match evaluate_expression fuel st e1 with
                  | .ok arg st2 =>
                      match format_output fuel st2 arg with
                      | .ok line st3 =>
                          .ok .Nil { st3 with output := st3.output ++ [line] }
                      | .err e2 st3 => .err e2 st3
                      | .panic m => .panic m
                      | .unsupported m => .unsupported m
                      | .timeout => .timeout
                  | .err e2 st2 => .err e2 st2
                  | .panic m => .panic m
                  | .unsupported m => .unsupported m
                  | .timeout => .timeout
              | _ => .err (.RuntimeError "Unknown console method out") st
            else if method_name = "in" ∧ args.length = 1 then
              match args with
              | [a0] =>
                  match a0 with
                  | .Dereference inner =>
                      match inner with
                      | .Identifier _ => .unsupported "con.in reads stdin"
                      | _ => .err (.RuntimeError
                          "con.in expects a pointer to a variable") st
                  | _ => .err (.RuntimeError
                      "con.in expects a dereferenced variable (*var)") st
              | _ => .err (.RuntimeError "Unknown console method in") st
            else .err (.RuntimeError
              ("Unknown console method " ++ method_name)) st
          else
            match args with
            | [] => .panic "index out of bounds: the len is 0 but the index is 0"
            | arg0 :: _ =>
                match arg0 with
                | .MethodCall mc2 =>
                    match mc2.object with
                    | .Identifier var_name =>
                        call_mutable_struct_method fuel st var_name
                          method_name (args.drop 1)
                    | _ => struct_method_lookup fuel st object struct_name
                        fields method_name args
                | _ => struct_method_lookup fuel st object struct_name
                    fields method_name args
      | _ => .err (.RuntimeError ("Unknown method " ++ method_name)) st

/-- The `struct_methods` lookup-and-loop tail of `call_method`'s struct arm
(`interpreter.rs` lines 713-728). -/
def struct_method_lookup : Nat → InterpState → ChifValue → String →
    List (String × ChifValue) → String → List Expression → Step ChifValue
  | 0, _, _, _, _, _, _ => .timeout
  | fuel + 1, st, object, struct_name, _fields, method_name, args =>
      match alGet st.struct_methods struct_name with
      | some methods =>
          call_method_find fuel st object struct_name method_name args methods
      | none => .err (.RuntimeError
          ("Unknown method " ++ method_name ++ " for struct "
            ++ struct_name)) st

/-- The `for method in methods` loop of `call_method`'s struct arm. -/
def call_method_find : Nat → InterpState → ChifValue → String → String →
    List Expression → List Function → Step ChifValue
  | 0, _, _, _, _, _, _ => .timeout
  | _ + 1, st, _, struct_name, method_name, _, [] =>
      .err (.RuntimeError
        ("Unknown method " ++ method_name ++ " for struct "
          ++ struct_name)) st
  | fuel + 1, st, object, struct_name, method_name, args, method :: rest =>
      if method.name = method_name then
        match eval_expr_args fuel st args with
        | .ok vals st2 => call_function fuel st2 method (object :: vals)
        | .err e2 st2 => .err e2 st2
        | .panic m => .panic m
        | .unsupported m => .unsupported m
        | .timeout => .timeout
      else call_method_find fuel st object struct_name method_name args rest

/-- `interpreter.rs` lines 1347-1411: `call_mutable_struct_method` — the
record-variable method interception.  The method runs on a copy of the
record bound to `self`; afterwards, write-back happens only when the method
is literally named `shift`: the record's `x` and `y` fields (when they are
`Int`s) are incremented by the first two `Int` arguments and the updated
record is stored back into the variable. -/
def call_mutable_struct_method : Nat → InterpState → String → String →
    List Expression → Step ChifValue
  | 0, _, _, _, _ => .timeout
  | fuel + 1, st, var_name, method_name, args =>
      match get_variable st var_name with
      | .error e2 => .err e2 st
      | .ok object =>
          match object with
          | .Struct struct_name fields =>
              match alGet st.struct_methods struct_name with
              | some methods =>
                  cmsm_loop fuel st var_name method_name args object
                    struct_name fields methods
              | none => .err (.RuntimeError
                  ("Method " ++ method_name ++ " not found for struct")) st
          | _ => .err (.RuntimeError
              ("Method " ++ method_name ++ " not found for struct")) st

/-- The `for method in methods` loop of `call_mutable_struct_method`,
including the hardcoded `shift` write-back. -/
def cmsm_loop : Nat → InterpState → String → String → List Expression →
    ChifValue → String → List (String × ChifValue) → List Function →
    Step ChifValue
  | 0, _, _, _, _, _, _, _, _ => .timeout
  | _ + 1, st, _, method_name, _, _, _, _, [] =>
      .err (.RuntimeError
        ("Method " ++ method_name ++ " not found for struct")) st
  | fuel + 1, st, var_name, method_name, args, object, struct_name,
      fields_clone, method :: rest =>
      if method.name = method_name then
        let dxdyStep : Step (Int × Int) :=
          if method_name = "shift" ∧ args.length ≥ 2 then
            match args with
            | a0 :: a1 :: _ =>
                match evaluate_expression fuel st a0 with
                | .ok dxV st2 =>
                    match evaluate_expression fuel st2 a1 with
                    | .ok dyV st3 =>
                        match dxV, dyV with
                        | .Int dx, .Int dy => .ok (dx, dy) st3
                        | _, _ => .ok (0, 0) st3
                    | .err e2 st3 => .err e2 st3
                    | .panic m => .panic m
                    | .unsupported m => .unsupported m
                    | .timeout => .timeout
                | .err e2 st2 => .err e2 st2
                | .panic m => .panic m
                | .unsupported m => .unsupported m
                | .timeout => .timeout
            | _ => .ok (0, 0) st
          else .ok (0, 0) st
        match dxdyStep with
        | .ok (dx_val, dy_val) st2 =>
            match eval_expr_args fuel st2 args with
            | .ok vals st3 =>
                match call_function fuel st3 method (object :: vals) with
                | .ok result st4 =>
                    if method_name = "shift" then
                      let updated1 :=
                        match alGet fields_clone "x" with
                        | some (.Int x) =>
                            alInsert fields_clone "x" (.Int (x + dx_val))
                        | _ => fields_clone
                      let updated2 :=
                        match alGet updated1 "y" with
                        | some (.Int y) =>
                            alInsert updated1 "y" (.Int (y + dy_val))
                        | _ => updated1
                      .ok result (set_variable st4 var_name
                        (.Struct struct_name updated2))
                    else .ok result st4
                | .err e2 st4 => .err e2 st4
                | .panic m => .panic m
                | .unsupported m => .unsupported m
                | .timeout => .timeout
            | .err e2 st3 => .err e2 st3
            | .panic m => .panic m
            | .unsupported m => .unsupported m
            | .timeout => .timeout
        | .err e2 st2 => .err e2 st2
        | .panic m => .panic m
        | .unsupported m => .unsupported m
        | .timeout => .timeout
      else
        cmsm_loop fuel st var_name method_name args object struct_name
          fields_clone rest

/-- `interpreter.rs` lines 1413-1488: `call_mutable_method` — in-place list
mutation on a named variable.  Out-of-range indices for `addAt`/`del`
produce a `RuntimeError` with an out-of-bounds message (NOT the
`IndexOutOfBounds` variant, which only read indexing uses). -/
def call_mutable_method : Nat → InterpState → String → String →
    List Expression → Step ChifValue
  | 0, _, _, _, _ => .timeout
  | fuel + 1, st, var_name, method_name, args =>
      match get_variable st var_name with
      | .error e2 => .err e2 st
      | .ok object =>
          match object with
          | .List l =>
              if method_name = "add" then
                if args.length ≠ 1 then
                  .err (.RuntimeError "add method expects 1 argument") st
                else
                  match args with
                  | [e1] =>
                      match evaluate_expression fuel st e1 with
                      | .ok value st2 =>
                          .ok .Nil (set_variable st2 var_name
                            (.List (l ++ [value])))
                      | .err e2 st2 => .err e2 st2
                      | .panic m => .panic m
                      | .unsupported m => .unsupported m
                      | .timeout => .timeout
                  | _ => .err (.RuntimeError
                      "add method expects 1 argument") st
              else if method_name = "addAt" then
                if args.length ≠ 2 then
                  .err (.RuntimeError "addAt method expects 2 arguments") st
                else
                  match args with
                  | [e1, e2] =>
                      match evaluate_expression fuel st e1 with
                      | .ok value st2 =>
                          match evaluate_expression fuel st2 e2 with
                          | .ok index st3 =>
                              match index with
                              | .Int idx =>
                                  if idx ≥ 0 ∧ idx.toNat ≤ l.length then
                                    .ok .Nil (set_variable st3 var_name
                                      (.List (list_insert_at l idx.toNat value)))
                                  else
                                    .err (.RuntimeError
                                      ("Index " ++ toString idx
                                        ++ " out of bounds for list of length "
                                        ++ toString l.length)) st3
                              | _ => .err (.RuntimeError
                                  "addAt index must be an integer") st3
                          | .err e3 st3 => .err e3 st3
                          | .panic m => .panic m
                          | .unsupported m => .unsupported m
                          | .timeout => .timeout
                      | .err e3 st2 => .err e3 st2
                      | .panic m => .panic m
                      | .unsupported m => .unsupported m
                      | .timeout => .timeout
                  | _ => .err (.RuntimeError
                      "addAt method expects 2 arguments") st
              else if method_name = "del" then
                if args.length ≠ 1 then
                  .err (.RuntimeError "del method expects 1 argument") st
                else
                  match args with
                  | [e1] =>
                      match evaluate_expression fuel st e1 with
                      | .ok index st2 =>
                          match index with
                          | .Int idx =>
                              if idx ≥ 0 ∧ idx.toNat < l.length then
                                .ok .Nil (set_variable st2 var_name
                                  (.List (list_remove_at l idx.toNat)))
                              else
                                .err (.RuntimeError
                                  ("Index " ++ toString idx
                                    ++ " out of bounds for list of length "
                                    ++ toString l.length)) st2
                          | _ => .err (.RuntimeError
                              "del index must be an integer") st2
                      | .err e3 st2 => .err e3 st2
                      | .panic m => .panic m
                      | .unsupported m => .unsupported m
                      | .timeout => .timeout
                  | _ => .err (.RuntimeError
                      "del method expects 1 argument") st
              else .err (.RuntimeError
                  ("Unknown mutable method " ++ method_name ++ " for list")) st
          | _ => .err (.RuntimeError
              ("Method " ++ method_name ++ " not supported for this type")) st

/-- `interpreter.rs` lines 748-803: `interpolate_string` (character scan with
placeholder evaluation), expressed over the remaining character suffix. -/
def interp_chars : Nat → InterpState → List Char → Step String
  | 0, _, _ => .timeout
  | fuel + 1, st, chars =>
      match chars with
      | [] => .ok "" st
      | '{' :: rest =>
          match rest with
          | '{' :: rest2 =>
              match interp_chars fuel st rest2 with
              | .ok tail st2 => .ok ("\x7b" ++ tail) st2
              | .err e2 st2 => .err e2 st2
              | .panic m => .panic m
              | .unsupported m => .unsupported m
              | .timeout => .timeout
          | _ =>
              match split_placeholder rest with
              | none => .err (.RuntimeError
                  "Unclosed interpolation bracket") st
              | some (nameChars, rest2) =>
                  if nameChars.isEmpty then
                    match interp_chars fuel st rest2 with
                    | .ok tail st2 => .ok ("\x7b\x7d" ++ tail) st2
                    | .err e2 st2 => .err e2 st2
                    | .panic m => .panic m
                    | .unsupported m => .unsupported m
                    | .timeout => .timeout
                  else
                    let var_name := String.mk nameChars
                    match evaluate_interpolation_expression fuel st var_name with
                    | .ok value st2 =>
                        match interp_chars fuel st2 rest2 with
                        | .ok tail st3 =>
                            .ok (chifValueToString value ++ tail) st3
                        | .err e2 st3 => .err e2 st3
                        | .panic m => .panic m
                        | .unsupported m => .unsupported m
                        | .timeout => .timeout
                    | .err _ st2 =>
                        match interp_chars fuel st2 rest2 with
                        | .ok tail st3 =>
                            .ok ("\x7b" ++ var_name ++ "\x7d" ++ tail) st3
                        | .err e2 st3 => .err e2 st3
                        | .panic m => .panic m
                        | .unsupported m => .unsupported m
                        | .timeout => .timeout
                    | .panic m => .panic m
                    | .unsupported m => .unsupported m
                    | .timeout => .timeout
      | '}' :: '}' :: rest2 =>
          match interp_chars fuel st rest2 with
          | .ok tail st2 => .ok ("\x7d" ++ tail) st2
          | .err e2 st2 => .err e2 st2
          | .panic m => .panic m
          | .unsupported m => .unsupported m
          | .timeout => .timeout
      | c :: rest =>
          match interp_chars fuel st rest with
          | .ok tail st2 => .ok (String.mk [c] ++ tail) st2
          | .err e2 st2 => .err e2 st2
          | .panic m => .panic m
          | .unsupported m => .unsupported m
          | .timeout => .timeout

/-- `interpolate_string` entry: scan the string's characters. -/
def interpolate_string : Nat → InterpState → String → Step String
  | 0, _, _ => .timeout
  | fuel + 1, st, s => interp_chars fuel st s.data

/-- `interpreter.rs` lines 806-906: `evaluate_interpolation_expression` —
the restricted placeholder sub-language: zero-argument method call, mixed
index/field chain, field chain, single index, plain variable. -/
def evaluate_interpolation_expression : Nat → InterpState → String →
    Step ChifValue
  | 0, _, _ => .timeout
  | fuel + 1, st, expr =>
      if str_contains expr '.' ∧ str_ends_with expr "()" then
        let method_call := str_drop_right expr 2
        let parts := str_split_dot method_call
        match parts with
        | [objName, methName] =>
            match get_variable st objName with
            | .error e2 => .err e2 st
            | .ok obj => call_method fuel st obj methName []
        | _ => .err (.RuntimeError
            ("Invalid method call expression: " ++ expr)) st
      else if str_contains expr '[' ∧ str_contains expr ']' ∧
          str_contains expr '.' then
        let chars := expr.data
        let base_end := charIndexOrLen chars '['
        let base_name := String.mk (chars.take base_end)
        match get_variable st base_name with
        | .error e2 => .err e2 st
        | .ok current =>
            match interp_chain_walk expr current (chars.drop base_end) with
            | .error e2 => .err e2 st
            | .ok v => .ok v st
      else if str_contains expr '.' then
        match str_split_dot expr with
        | p0 :: p1 :: prest =>
            match get_variable st p0 with
            | .error e2 => .err e2 st
            | .ok obj =>
                match fold_get_fields obj (p1 :: prest) with
                | .error e2 => .err e2 st
                | .ok v => .ok v st
        | _ => interp_simple_index_or_var st expr
      else interp_simple_index_or_var st expr

/-- `interpreter.rs` lines 822-869: the mixed chain branch delegates to
`interp_chain_walk`; this definition covers the remaining two branches of
`evaluate_interpolation_expression` (lines 887-905): simple `name[i]`
indexing went the bracket route, and the final fallback is a plain variable
lookup. -/
def interp_simple_index_or_var (st : InterpState) (expr : String) :
    Step ChifValue :=
  if str_contains expr '[' ∧ str_contains expr ']' then
    let chars := expr.data
    let bracket_pos := charIndexOrLen chars '['
    let var_part := String.mk (chars.take bracket_pos)
    let index_part := chars.drop (bracket_pos + 1)
    let close_rel := charIndexOrLen index_part ']'
    if close_rel < index_part.length then
      let index_str := String.mk (index_part.take close_rel)
      match parse_i64 index_str with
      | none => .err (.RuntimeError
          ("Invalid array index: " ++ index_str)) st
      | some i =>
          match get_variable st var_part with
          | .error e2 => .err e2 st
          | .ok obj =>
              match get_index obj (.Int i) with
              | .error e2 => .err e2 st
              | .ok v => .ok v st
    else
      match get_variable st expr with
      | .error e2 => .err e2 st
      | .ok v => .ok v st
  else
    match get_variable st expr with
    | .error e2 => .err e2 st
    | .ok v => .ok v st

/-- `interpreter.rs` lines 738-746: `format_output` — strings get
interpolated (again), every other value is rendered with `to_string`. -/
def format_output : Nat → InterpState → ChifValue → Step String
  | 0, _, _ => .timeout
  | fuel + 1, st, v =>
      match v with
      | .Str s => interpolate_string fuel st s
      | _ => .ok (chifValueToString v) st

end

/-- The first-pass item loop of `Interpreter::execute`
(`interpreter.rs` lines 45-63), which registers functions, structs and
method sets.  `process_import` (lines 1093-1161) starts by reading the
imported file; under the model's empty filesystem it returns exactly the
source's cannot-read error. -/
def collect_items (st : InterpState) : List Item → Step Unit
  | [] => .ok () st
  | item :: rest =>
      match item with
      | .Import imp =>
          let file_path :=
            if imp.path.endsWith ".rono" then imp.path
            else imp.path ++ ".rono"
          .err (.RuntimeError ("Cannot read file: " ++ file_path)) st
      | .Function func =>
          collect_items
            { st with functions := alInsert st.functions func.name func } rest
      | .Struct sd =>
          collect_items
            { st with structs := alInsert st.structs sd.name sd } rest
      | .StructImpl impl =>
          collect_items
            { st with struct_methods :=
                sm_extend st.struct_methods impl.struct_name impl.methods }
            rest

/-- `interpreter.rs` lines 43-81: `Interpreter::execute` — register the
items, then locate `main`, require its `chif` flag, and invoke it with no
arguments. -/
def execute (fuel : Nat) (st : InterpState) (program : Program) : Step Unit :=
  match collect_items st program.items with
  | .ok _ st2 =>
      match alGet st2.functions "main" with
      | some main_func =>
          if main_func.is_main then
            match call_function fuel st2 main_func [] with
            | .ok _ st3 => .ok () st3
            | .err e2 st3 => .err e2 st3
            | .panic m => .panic m
            | .unsupported m => .unsupported m
            | .timeout => .timeout
          else
            .err (.RuntimeError "Main function must be marked with chif") st2
      | none => .err (.RuntimeError "No main function found") st2
  | .err e2 st2 => .err e2 st2
  | .panic m => .panic m
  | .unsupported m => .unsupported m
  | .timeout => .timeout

/-! ### Parser (`parser.rs`, expression grammar lines 543-955) -/

/-- `lexer.rs` lines 3-74: `enum Token`. -/
inductive Token : Type where
  | Chif | Let | Var | Array | List | Map | Fn | FnFor | Struct
  | If | Else | For | While | Switch | Case | Default | Ret | Import | As
  | Int | Float | Str | Bool | Nil | Pointer
  | Identifier : String → Token
  | IntLiteral : Int → Token
  | FloatLiteral : F64 → Token
  | StringLiteral : String → Token
  | BoolLiteral : Bool → Token
  | Plus | Minus | Multiply | Divide | Modulo | Assign
  | Equal | NotEqual | Less | Greater | LessEqual | GreaterEqual
  | And | Or | Not | Reference | Dereference
  | LeftParen | RightParen | LeftBrace | RightBrace
  | LeftBracket | RightBracket | Semicolon | Colon | Comma | Dot
  | Eof

/-- The variant tag of a token — the model of `std::mem::discriminant`. -/
def token_tag : Token → Nat
  | .Chif => 0 | .Let => 1 | .Var => 2 | .Array => 3 | .List => 4
  | .Map => 5 | .Fn => 6 | .FnFor => 7 | .Struct => 8 | .If => 9
  | .Else => 10 | .For => 11 | .While => 12 | .Switch => 13 | .Case => 14
  | .Default => 15 | .Ret => 16 | .Import => 17 | .As => 18 | .Int => 19
  | .Float => 20 | .Str => 21 | .Bool => 22 | .Nil => 23 | .Pointer => 24
  | .Identifier _ => 25 | .IntLiteral _ => 26 | .FloatLiteral _ => 27
  | .StringLiteral _ => 28 | .BoolLiteral _ => 29
  | .Plus => 30 | .Minus => 31 | .Multiply => 32 | .Divide => 33
  | .Modulo => 34 | .Assign => 35 | .Equal => 36 | .NotEqual => 37
  | .Less => 38 | .Greater => 39 | .LessEqual => 40 | .GreaterEqual => 41
  | .And => 42 | .Or => 43 | .Not => 44 | .Reference => 45
  | .Dereference => 46 | .LeftParen => 47 | .RightParen => 48
  | .LeftBrace => 49 | .RightBrace => 50 | .LeftBracket => 51
  | .RightBracket => 52 | .Semicolon => 53 | .Colon => 54 | .Comma => 55
  | .Dot => 56 | .Eof => 57

/-- `std::mem::discriminant(a) == std::mem::discriminant(b)` — variant-only
comparison, ignoring payloads (`parser.rs` lines 915-926). -/
def same_discriminant (a b : Token) : Bool :=
  token_tag a = token_tag b

/-- Debug rendering of a token (stands in for Rust `{:?}` in parser error
messages; no theorem depends on the rendered text). -/
def tokenDebug : Token → String
  | .Identifier n => "Identifier(" ++ n ++ ")"
  | .IntLiteral i => "IntLiteral(" ++ toString i ++ ")"
  | .FloatLiteral _ => "FloatLiteral"
  | .StringLiteral s => "StringLiteral(" ++ s ++ ")"
  | .BoolLiteral b => "BoolLiteral(" ++ toString b ++ ")"
  | t => "Token#" ++ toString (token_tag t)

/-- `parser.rs`: the parser's state — the token vector and the cursor. -/
structure ParserState : Type where
  tokens : List Token
  current : Nat

/-- `parser.rs` lines 939-941: `peek` (the token vector is always terminated
by `Eof` and `advance` never moves past it, so the cursor stays in bounds;
`getD` with `Eof` is the irrelevant default). -/
def ParserState.peek (p : ParserState) : Token :=
  p.tokens.getD p.current .Eof

/-- `parser.rs` lines 943-945: `previous`. -/
def ParserState.previous (p : ParserState) : Token :=
  p.tokens.getD (p.current - 1) .Eof

/-- `parser.rs` lines 935-937: `is_at_end`. -/
def ParserState.is_at_end (p : ParserState) : Bool :=
  match p.peek with
  | .Eof => true
  | _ => false

/-- `parser.rs` lines 928-933: `advance` — step the cursor (unless at end)
and return the token just passed. -/
def ParserState.advance (p : ParserState) : Token × ParserState :=
  if !p.is_at_end then
    let p2 : ParserState := { p with current := p.current + 1 }
    (p2.previous, p2)
  else (p.previous, p)

/-- `parser.rs` lines 924-926: `check` — discriminant-only comparison with
the lookahead. -/
def ParserState.check (p : ParserState) (t : Token) : Bool :=
  same_discriminant p.peek t

/-- `parser.rs` lines 915-922: `match_token` — conditional advance. -/
def ParserState.match_token (p : ParserState) (t : Token) :
    Bool × ParserState :=
  if same_discriminant p.peek t then
    let (_, p2) := p.advance
    (true, p2)
  else (false, p)

/-- Result of a parsing step; Rust's `Result` aborts on the first error and
the parser state is dropped, so `err` carries no state.  `timeout` is the
fuel-exhaustion artifact of the embedding. -/
inductive PStep (α : Type) : Type where
  | ok : α → ParserState → PStep α
  | err : ChifError → PStep α
  | timeout : PStep α

/-- `parser.rs` lines 947-955: `consume`. -/
def ParserState.consume (p : ParserState) (t : Token) (msg : String) :
    PStep Token :=
  if same_discriminant p.peek t then
    let (tok, p2) := p.advance
    .ok tok p2
  else .err (.ParserError (msg ++ ", found " ++ tokenDebug p.peek))

/-- `parser.rs` lines 833-845: `match_equality_op`. -/
def match_equality_op (p : ParserState) :
    Option BinaryOperator × ParserState :=
  match p.peek with
  | .Equal => (some .Equal, (p.advance).2)
  | .NotEqual => (some .NotEqual, (p.advance).2)
  | _ => (none, p)

/-- `parser.rs` lines 847-867: `match_comparison_op`. -/
def match_comparison_op (p : ParserState) :
    Option BinaryOperator × ParserState :=
  match p.peek with
  | .Less => (some .Less, (p.advance).2)
  | .Greater => (some .Greater, (p.advance).2)
  | .LessEqual => (some .LessEqual, (p.advance).2)
  | .GreaterEqual => (some .GreaterEqual, (p.advance).2)
  | _ => (none, p)

/-- `parser.rs` lines 869-881: `match_term_op` (`+`, `-`). -/
def match_term_op (p : ParserState) : Option BinaryOperator × ParserState :=
  match p.peek with
  | .Plus => (some .Add, (p.advance).2)
  | .Minus => (some .Subtract, (p.advance).2)
  | _ => (none, p)

/-- `parser.rs` lines 883-899: `match_factor_op` (`*`, `/`, `%`). -/
def match_factor_op (p : ParserState) : Option BinaryOperator × ParserState :=
  match p.peek with
  | .Multiply => (some .Multiply, (p.advance).2)
  | .Divide => (some .Divide, (p.advance).2)
  | .Modulo => (some .Modulo, (p.advance).2)
  | _ => (none, p)

/-- `parser.rs` lines 901-913: `match_unary_op` (`!`, unary `-`). -/
def match_unary_op (p : ParserState) : Option UnaryOperator × ParserState :=
  match p.peek with
  | .Not => (some .Not, (p.advance).2)
  | .Minus => (some .Minus, (p.advance).2)
  | _ => (none, p)

mutual

/-- `parser.rs` lines 543-545: `parse_expression` — lowest precedence is
`||`. -/
def parse_expression : Nat → ParserState → PStep Expression
  | 0, _ => .timeout
  | fuel + 1, p => parse_or fuel p

/-- `parser.rs` lines 547-560: `parse_or` (left-associative `||` over
`&&`). -/
def parse_or : Nat → ParserState → PStep Expression
  | 0, _ => .timeout
  | fuel + 1, p =>
      match parse_and fuel p with
      | .ok expr p2 => parse_or_loop fuel p2 expr
      | .err e => .err e
      | .timeout => .timeout

/-- The `while match_token(Or)` loop of `parse_or`. -/
def parse_or_loop : Nat → ParserState → Expression → PStep Expression
  | 0, _, _ => .timeout
  | fuel + 1, p, expr =>
      match p.match_token .Or with
      | (true, p2) =>
          match parse_and fuel p2 with
          | .ok right p3 =>
              parse_or_loop fuel p3 (.Binary (.mk expr .Or right))
          | .err e => .err e
          | .timeout => .timeout
      | (false, p2) => .ok expr p2

/-- `parser.rs` lines 562-575: `parse_and` (left-associative `&&` over
equality). -/
def parse_and : Nat → ParserState → PStep Expression
  | 0, _ => .timeout
  | fuel + 1, p =>
      match parse_equality fuel p with
      | .ok expr p2 => parse_and_loop fuel p2 expr
      | .err e => .err e
      | .timeout => .timeout

/-- The `while match_token(And)` loop of `parse_and`. -/
def parse_and_loop : Nat → ParserState → Expression → PStep Expression
  | 0, _, _ => .timeout
  | fuel + 1, p, expr =>
      match p.match_token .And with
      | (true, p2) =>
          match parse_equality fuel p2 with
          | .ok right p3 =>
              parse_and_loop fuel p3 (.Binary (.mk expr .And right))
          | .err e => .err e
          | .timeout => .timeout
      | (false, p2) => .ok expr p2

/-- `parser.rs` lines 577-590: `parse_equality` (left-associative `==`/`!=`
over comparison). -/
def parse_equality : Nat → ParserState → PStep Expression
  | 0, _ => .timeout
  | fuel + 1, p =>
      match parse_comparison fuel p with
      | .ok expr p2 => parse_equality_loop fuel p2 expr
      | .err e => .err e
      | .timeout => .timeout

/-- The operator loop of `parse_equality`. -/
def parse_equality_loop : Nat → ParserState → Expression → PStep Expression
  | 0, _, _ => .timeout
  | fuel + 1, p, expr =>
      match match_equality_op p with
      | (some op, p2) =>
          match parse_comparison fuel p2 with
          | .ok right p3 =>
              parse_equality_loop fuel p3 (.Binary (.mk expr op right))
          | .err e => .err e
          | .timeout => .timeout
      | (none, p2) => .ok expr p2

/-- `parser.rs` lines 592-605: `parse_comparison` (left-associative `<`,
`>`, `<=`, `>=` over additive). -/
def parse_comparison : Nat → ParserState → PStep Expression
  | 0, _ => .timeout
  | fuel + 1, p =>
      match parse_term fuel p with
      | .ok expr p2 => parse_comparison_loop fuel p2 expr
      | .err e => .err e
      | .timeout => .timeout

/-- The operator loop of `parse_comparison`. -/
def parse_comparison_loop : Nat → ParserState → Expression → PStep Expression
  | 0, _, _ => .timeout
  | fuel + 1, p, expr =>
      match match_comparison_op p with
      | (some op, p2) =>
          match parse_term fuel p2 with
          | .ok right p3 =>
              parse_comparison_loop fuel p3 (.Binary (.mk expr op right))
          | .err e => .err e
          | .timeout => .timeout
      | (none, p2) => .ok expr p2

/-- `parser.rs` lines 607-620: `parse_term` (left-associative `+`/`-` over
multiplicative). -/
def parse_term : Nat → ParserState → PStep Expression
  | 0, _ => .timeout
  | fuel + 1, p =>
      match parse_factor fuel p with
      | .ok expr p2 => parse_term_loop fuel p2 expr
      | .err e => .err e
      | .timeout => .timeout

/-- The operator loop of `parse_term`. -/
def parse_term_loop : Nat → ParserState → Expression → PStep Expression
  | 0, _, _ => .timeout
  | fuel + 1, p, expr =>
      match match_term_op p with
      | (some op, p2) =>
          match parse_factor fuel p2 with
          | .ok right p3 =>
              parse_term_loop fuel p3 (.Binary (.mk expr op right))
          | .err e => .err e
          | .timeout => .timeout
      | (none, p2) => .ok expr p2

/-- `parser.rs` lines 622-635: `parse_factor` (left-associative `*`, `/`,
`%` over unary). -/
def parse_factor : Nat → ParserState → PStep Expression
  | 0, _ => .timeout
  | fuel + 1, p =>
      match parse_unary fuel p with
      | .ok expr p2 => parse_factor_loop fuel p2 expr
      | .err e => .err e
      | .timeout => .timeout

/-- The operator loop of `parse_factor`. -/
def parse_factor_loop : Nat → ParserState → Expression → PStep Expression
  | 0, _, _ => .timeout
  | fuel + 1, p, expr =>
      match match_factor_op p with
      | (some op, p2) =>
          match parse_unary fuel p2 with
          | .ok right p3 =>
              parse_factor_loop fuel p3 (.Binary (.mk expr op right))
          | .err e => .err e
          | .timeout => .timeout
      | (none, p2) => .ok expr p2

/-- `parser.rs` lines 637-654: `parse_unary` — prefix `!`/`-`, address-of
`&`, dereference `*` (the multiply token in unary position), else
postfix. -/
def parse_unary : Nat → ParserState → PStep Expression
  | 0, _ => .timeout
  | fuel + 1, p =>
      match match_unary_op p with
      | (some op, p2) =>
          match parse_unary fuel p2 with
          | .ok operand p3 => .ok (.Unary (.mk op operand)) p3
          | .err e => .err e
          | .timeout => .timeout
      | (none, p1) =>
          match p1.match_token .Reference with
          | (true, p2) =>
              match parse_unary fuel p2 with
              | .ok operand p3 => .ok (.Reference operand) p3
              | .err e => .err e
              | .timeout => .timeout
          | (false, p2) =>
              match p2.match_token .Multiply with
              | (true, p3) =>
                  match parse_unary fuel p3 with
                  | .ok operand p4 => .ok (.Dereference operand) p4
                  | .err e => .err e
                  | .timeout => .timeout
              | (false, p3) => parse_postfix fuel p3

/-- `parser.rs` lines 656-735: `parse_postfix` — calls, indexing and
field/method access bind tightest. -/
def parse_postfix : Nat → ParserState → PStep Expression
  | 0, _ => .timeout
  | fuel + 1, p =>
      match parse_primary fuel p with
      | .ok expr p2 => parse_postfix_loop fuel p2 expr
      | .err e => .err e
      | .timeout => .timeout

/-- The `loop` of `parse_postfix`. -/
def parse_postfix_loop : Nat → ParserState → Expression → PStep Expression
  | 0, _, _ => .timeout
  | fuel + 1, p, expr =>
      match p.match_token .LeftParen with
      | (true, p2) =>
          let argsStep :=
            if p2.check .RightParen then PStep.ok [] p2
            else parse_arg_list fuel p2
          match argsStep with
          | .ok args p3 =>
              match p3.consume .RightParen
                  "Expected closing paren after function arguments" with
              | .ok _ p4 =>
                  match expr with
                  | .Identifier name =>
                      parse_postfix_loop fuel p4 (.Call (.mk name args))
                  | _ => .err (.ParserError "Invalid function call")
              | .err e => .err e
              | .timeout => .timeout
          | .err e => .err e
          | .timeout => .timeout
      | (false, pA) =>
          match pA.match_token .LeftBracket with
          | (true, p2) =>
              match parse_expression fuel p2 with
              | .ok idx0 p3 =>
                  match p3.consume .RightBracket
                      "Expected closing bracket after index" with
                  | .ok _ p4 =>
                      match parse_extra_indices fuel p4 [idx0] with
                      | .ok indices p5 =>
                          parse_postfix_loop fuel p5
                            (.Index (.mk expr indices))
                      | .err e => .err e
                      | .timeout => .timeout
                  | .err e => .err e
                  | .timeout => .timeout
              | .err e => .err e
              | .timeout => .timeout
          | (false, pB) =>
              match pB.match_token .Dot with
              | (true, p2) =>
                  let (tok, p3) := p2.advance
                  match tok with
                  | .Identifier field_name =>
                      match p3.match_token .LeftParen with
                      | (true, p4) =>
                          let argsStep :=
                            if p4.check .RightParen then PStep.ok [] p4
                            else parse_arg_list fuel p4
                          match argsStep with
                          | .ok args p5 =>
                              match p5.consume .RightParen
                                  "Expected closing paren after method arguments" with
                              | .ok _ p6 =>
                                  parse_postfix_loop fuel p6
                                    (.MethodCall (.mk expr field_name args))
                              | .err e => .err e
                              | .timeout => .timeout
                          | .err e => .err e
                          | .timeout => .timeout
                      | (false, p4) =>
                          parse_postfix_loop fuel p4
                            (.FieldAccess (.mk expr field_name))
                  | _ => .err (.ParserError
                      "Expected field or method name after dot")
              | (false, pC) => .ok expr pC

/-- The comma-separated argument loop shared by call and method-call parsing
(`parser.rs` lines 663-669 and 707-713). -/
def parse_arg_list : Nat → ParserState → PStep (List Expression)
  | 0, _ => .timeout
  | fuel + 1, p =>
      match parse_expression fuel p with
      | .ok arg p2 =>
          match p2.match_token .Comma with
          | (true, p3) =>
              match parse_arg_list fuel p3 with
              | .ok args p4 => .ok (arg :: args) p4
              | .err e => .err e
              | .timeout => .timeout
          | (false, p3) => .ok [arg] p3
      | .err e => .err e
      | .timeout => .timeout

/-- The `while match_token(LeftBracket)` loop of the index branch
(`parser.rs` lines 686-689). -/
def parse_extra_indices : Nat → ParserState → List Expression →
    PStep (List Expression)
  | 0, _, _ => .timeout
  | fuel + 1, p, acc =>
      match p.match_token .LeftBracket with
      | (true, p2) =>
          match parse_expression fuel p2 with
          | .ok idx p3 =>
              match p3.consume .RightBracket
                  "Expected closing bracket after index" with
              | .ok _ p4 => parse_extra_indices fuel p4 (acc ++ [idx])
              | .err e => .err e
              | .timeout => .timeout
          | .err e => .err e
          | .timeout => .timeout
      | (false, p2) => .ok acc p2

/-- `parser.rs` lines 737-830: `parse_primary` — literals, identifiers
(and identifier-headed struct literals), parenthesized expressions, array
literals and map literals. -/
def parse_primary : Nat → ParserState → PStep Expression
  | 0, _ => .timeout
  | fuel + 1, p =>
      let (tok, p1) := p.advance
      match tok with
      | .IntLiteral v => .ok (.Literal (.Int v)) p1
      | .FloatLiteral v => .ok (.Literal (.Float v)) p1
      | .StringLiteral v => .ok (.Literal (.Str v)) p1
      | .BoolLiteral v => .ok (.Literal (.Bool v)) p1
      | .Nil => .ok (.Literal .Nil) p1
      | .Identifier name =>
          if p1.check .LeftBrace then
            let (_, p2) := p1.advance
            let fieldsStep :=
              if p2.check .RightBrace then PStep.ok [] p2
              else parse_struct_lit_fields fuel p2
            match fieldsStep with
            | .ok fields p3 =>
                match p3.consume .RightBrace
                    "Expected closing brace after struct fields" with
                | .ok _ p4 => .ok (.StructLiteral (.mk name fields)) p4
                | .err e => .err e
                | .timeout => .timeout
            | .err e => .err e
            | .timeout => .timeout
          else .ok (.Identifier name) p1
      | .LeftParen =>
          match parse_expression fuel p1 with
          | .ok expr p2 =>
              match p2.consume .RightParen
                  "Expected closing paren after expression" with
              | .ok _ p3 => .ok expr p3
              | .err e => .err e
              | .timeout => .timeout
          | .err e => .err e
          | .timeout => .timeout
      | .LeftBracket =>
          let elemsStep :=
            if p1.check .RightBracket then PStep.ok [] p1
            else parse_arg_list fuel p1
          match elemsStep with
          | .ok elems p2 =>
              match p2.consume .RightBracket
                  "Expected closing bracket after array elements" with
              | .ok _ p3 => .ok (.ArrayLiteral elems) p3
              | .err e => .err e
              | .timeout => .timeout
          | .err e => .err e
          | .timeout => .timeout
      | .LeftBrace =>
          if p1.check (.StringLiteral "") || p1.check (.Identifier "") then
            let pairsStep :=
              if p1.check .RightBrace then PStep.ok [] p1
              else parse_map_pairs fuel p1
            match pairsStep with
            | .ok pairs p2 =>
                match p2.consume .RightBrace
                    "Expected closing brace after map elements" with
                | .ok _ p3 => .ok (.MapLiteral pairs) p3
                | .err e => .err e
                | .timeout => .timeout
            | .err e => .err e
            | .timeout => .timeout
          else .err (.ParserError "Unexpected opening brace")
      | t => .err (.ParserError ("Unexpected token: " ++ tokenDebug t))

/-- The field loop of the struct-literal branch of `parse_primary`
(`parser.rs` lines 749-771), including the trailing-comma rule. -/
def parse_struct_lit_fields : Nat → ParserState →
    PStep (List (String × Expression))
  | 0, _ => .timeout
  | fuel + 1, p =>
      let (tok, p1) := p.advance
      match tok with
      | .Identifier field_name =>
          match p1.consume .Assign "Expected assignment after field name" with
          | .ok _ p2 =>
              match parse_expression fuel p2 with
              | .ok value p3 =>
                  match p3.match_token .Comma with
                  | (true, p4) =>
                      if p4.check .RightBrace then
                        .ok [(field_name, value)] p4
                      else
                        match parse_struct_lit_fields fuel p4 with
                        | .ok fields p5 =>
                            .ok ((field_name, value) :: fields) p5
                        | .err e => .err e
                        | .timeout => .timeout
                  | (false, p4) => .ok [(field_name, value)] p4
              | .err e => .err e
              | .timeout => .timeout
          | .err e => .err e
          | .timeout => .timeout
      | _ => .err (.ParserError "Expected field name in struct literal")

/-- The pair loop of the map-literal branch of `parse_primary`
(`parser.rs` lines 806-817). -/
def parse_map_pairs : Nat → ParserState →
    PStep (List (Expression × Expression))
  | 0, _ => .timeout
  | fuel + 1, p =>
      match parse_expression fuel p with
      | .ok key p2 =>
          match p2.consume .Colon "Expected colon in map literal" with
          | .ok _ p3 =>
              match parse_expression fuel p3 with
              | .ok value p4 =>
                  match p4.match_token .Comma with
                  | (true, p5) =>
                      match parse_map_pairs fuel p5 with
                      | .ok pairs p6 => .ok ((key, value) :: pairs) p6
                      | .err e => .err e
                      | .timeout => .timeout
                  | (false, p5) => .ok [(key, value)] p5
              | .err e => .err e
              | .timeout => .timeout
          | .err e => .err e
          | .timeout => .timeout
      | .err e => .err e
      | .timeout => .timeout

end

/-! ### Concrete programs used by the theorems -/

/-- `fn f(c: bool) int { if c { ret 1; } else { ret 0; } }` — a non-main
function whose declared `Int` return is covered by a matched `if`/`else`
(claim C1's program shape, also the repo's own
`test_conditional_return_validation` shape). -/
def coveredFn : Function :=
  { name := "f",
    params := [{ name := "c", param_type := .Bool, is_reference := false }],
    return_type := some .Int,
    body := .mk [.If (.mk (.Identifier "c")
      (.mk [.Return (some (.Literal (.Int 1)))])
      (some (.mk [.Return (some (.Literal (.Int 0)))])))],
    is_main := false }

/-- `chif main() { }`. -/
def emptyMainFn : Function :=
  { name := "main", params := [], return_type := none,
    body := .mk [], is_main := true }

/-- The claim-C1 program: the covered function plus an empty `main`. -/
def c1Program : Program :=
  { items := [.Function coveredFn, .Function emptyMainFn] }

/-! ### Claim theorems -/

/-- C1.  The claim says `SemanticAnalyzer::analyze` returns `Ok` for the
well-typed program with a non-main `Int` function covered by a matched
`if`/`else`, because the builtin seeding does not trigger the same-scope
redefinition error.  The code contradicts this (and its own tests in
`semantic_test.rs`): `add_builtin_functions` calls `define_symbol` twice for
the name `int` (the `int(float)` and `int(str)` overloads) in the global
scope, `Scope::define_symbol` rejects the second, and therefore
`collect_definitions` — the first pass of `analyze` — fails with
`SymbolAlreadyDefined("int")` for every program, this one included. -/
theorem C1_builtin_seeding_always_fails :
    add_builtin_functions SemanticAnalyzer.new
      = .error (.SymbolAlreadyDefined "int" SourceLocation.unknown) ∧
    analyze 100 SemanticAnalyzer.new c1Program
      = .err (.SymbolAlreadyDefined "int" SourceLocation.unknown) ∧
    (∀ program : Program,
      collect_definitions SemanticAnalyzer.new program
        = .error (.SymbolAlreadyDefined "int" SourceLocation.unknown)) := by
  refine ⟨rfl, rfl, fun program => ?_⟩
  simp [collect_definitions]
  rfl

/-- A two-scope interpreter state: empty innermost scope, and an enclosing
local scope holding `x = 1` (list head is the innermost scope). -/
def c2State : InterpState :=
  { InterpState.new with locals := [[], [("x", ChifValue.Int 1)]] }

/-- A one-scope interpreter state with an empty scope (a function body about
to run). -/
def c2IfState : InterpState :=
  { InterpState.new with locals := [[]] }

/-- `if (true) { var x: int = 42; }`. -/
def c2IfStmt : Statement :=
  .If (.mk (.Literal (.Bool true))
    (.mk [.VarDecl (.mk "x" .Int (some (.Literal (.Int 42))) true)])
    none)

/-- C2, counterexample.  Assigning `x = 2` when `x` lives only in an
ENCLOSING local scope does not mutate that scope: `set_variable` inserts
into the innermost scope unconditionally, leaving the enclosing binding at
`1` and creating a shadowing `x = 2` in the innermost scope — the opposite
of the claim's "mutates the innermost scope that contains that name (all
other scopes unchanged)".  Moreover blocks do not push scopes: after
executing `if (true) { var x = 42; }` the variable `x` IS visible in the
surrounding scope, contradicting the claim's scope-hygiene sentence. -/
theorem C2_counterexample :
    (execute_statement 10 c2State
        (.Assignment (.mk (.Identifier "x") (.Literal (.Int 2))))
      = .ok () { c2State with
          locals := [[("x", ChifValue.Int 2)], [("x", ChifValue.Int 1)]] }) ∧
    alGet ([[("x", ChifValue.Int 2)], [("x", ChifValue.Int 1)]].getD 1 []) "x"
      = some (.Int 1) ∧
    alGet ([[("x", ChifValue.Int 2)], [("x", ChifValue.Int 1)]].getD 0 []) "x"
      = some (.Int 2) ∧
    (execute_statement 10 c2IfState c2IfStmt
      = .ok () { c2IfState with locals := [[("x", ChifValue.Int 42)]] }) ∧
    get_variable { c2IfState with locals := [[("x", ChifValue.Int 42)]] } "x"
      = .ok (.Int 42) :=
  ⟨rfl, rfl, rfl, rfl, rfl⟩

/-- C2, amended.  What the interpreter actually does: assignment (via
`set_variable`) always writes the INNERMOST local scope — creating or
overwriting the binding there and shadowing any enclosing binding, whose
scope is left unchanged — and writes the globals only when no local scope
exists; and since `if` blocks execute in the current scope (no push), a
variable declared inside an `if` remains visible in the surrounding scope
afterwards. -/
theorem C2_assignment_writes_innermost (st : InterpState) (n : String)
    (v : ChifValue) :
    (∀ sc rest, st.locals = sc :: rest →
      set_variable st n v = { st with locals := alInsert sc n v :: rest }) ∧
    (st.locals = [] →
      set_variable st n v = { st with globals := alInsert st.globals n v }) ∧
    (execute_statement 10 c2IfState c2IfStmt
      = .ok () { c2IfState with locals := [[("x", ChifValue.Int 42)]] }) := by
  refine ⟨fun sc rest h => ?_, fun h => ?_, rfl⟩
  · simp [set_variable, h]
  · simp [set_variable, h]

/-- Witness for C2's amended theorem at the concrete two-scope state. -/
theorem C2_assignment_writes_innermost_witness :
    c2State.locals = [] :: [[("x", ChifValue.Int 1)]] ∧
    set_variable c2State "x" (.Int 2)
      = { c2State with
          locals := alInsert [] "x" (.Int 2) :: [[("x", ChifValue.Int 1)]] } :=
  ⟨rfl, (C2_assignment_writes_innermost c2State "x" (.Int 2)).1
    [] [[("x", ChifValue.Int 1)]] rfl⟩

/-- `fn shift(self, dx: int, dy: int) { self.x = self.x + dx;
self.y = self.y + dy; }` — claim C3's method. -/
def shiftFn : Function :=
  { name := "shift",
    params := [
      { name := "self", param_type := .Struct "Self", is_reference := false },
      { name := "dx", param_type := .Int, is_reference := false },
      { name := "dy", param_type := .Int, is_reference := false }],
    return_type := none,
    body := .mk [
      .Assignment (.mk (.FieldAccess (.mk (.Identifier "self") "x"))
        (.Binary (.mk (.FieldAccess (.mk (.Identifier "self") "x")) .Add
          (.Identifier "dx")))),
      .Assignment (.mk (.FieldAccess (.mk (.Identifier "self") "y"))
        (.Binary (.mk (.FieldAccess (.mk (.Identifier "self") "y")) .Add
          (.Identifier "dy"))))],
    is_main := false }

/-- `chif main() { var p: P = P{x=1,y=2}; p.shift(3,4); con.out(p.x);
con.out(p.y); }`. -/
def mainPFn : Function :=
  { name := "main", params := [], return_type := none,
    body := .mk [
      .VarDecl (.mk "p" (.Struct "P")
        (some (.StructLiteral (.mk "P"
          [("x", .Literal (.Int 1)), ("y", .Literal (.Int 2))]))) true),
      .Expression (.MethodCall (.mk (.Identifier "p") "shift"
        [.Literal (.Int 3), .Literal (.Int 4)])),
      .Expression (.MethodCall (.mk (.Identifier "con") "out"
        [.FieldAccess (.mk (.Identifier "p") "x")])),
      .Expression (.MethodCall (.mk (.Identifier "con") "out"
        [.FieldAccess (.mk (.Identifier "p") "y")]))],
    is_main := true }

/-- The spec's scenario 4 program (struct `P`, method `shift`, `main`). -/
def progP : Program :=
  { items := [
      .Struct { name := "P", fields := [
        { name := "x", field_type := .Int },
        { name := "y", field_type := .Int }] },
      .StructImpl { struct_name := "P", methods := [shiftFn] },
      .Function mainPFn] }

/-- `fn setx(self) { self.x = 99; }` — a mutating method NOT named
`shift`. -/
def setxFn : Function :=
  { name := "setx",
    params := [{ name := "self", param_type := .Struct "Self",
                 is_reference := false }],
    return_type := none,
    body := .mk [
      .Assignment (.mk (.FieldAccess (.mk (.Identifier "self") "x"))
        (.Literal (.Int 99)))],
    is_main := false }

/-- `chif main() { var q: Q = Q{x=1}; q.setx(); con.out(q.x); }`. -/
def mainQFn : Function :=
  { name := "main", params := [], return_type := none,
    body := .mk [
      .VarDecl (.mk "q" (.Struct "Q")
        (some (.StructLiteral (.mk "Q" [("x", .Literal (.Int 1))]))) true),
      .Expression (.MethodCall (.mk (.Identifier "q") "setx" [])),
      .Expression (.MethodCall (.mk (.Identifier "con") "out"
        [.FieldAccess (.mk (.Identifier "q") "x")]))],
    is_main := true }

/-- The C3 counterexample program (struct `Q`, method `setx`, `main`). -/
def progQ : Program :=
  { items := [
      .Struct { name := "Q",
                fields := [{ name := "x", field_type := .Int }] },
      .StructImpl { struct_name := "Q", methods := [setxFn] },
      .Function mainQFn] }

/-- C3, counterexample.  A record method that is not named `shift` gets no
write-back at all: `assign_to_field` is a no-op and
`call_mutable_struct_method` only writes back for the literal method name
`shift`, so after `q.setx()` (whose body sets `self.x = 99`) the variable
`q` still holds `x = 1` and the program prints `1`, not `99` — refuting the
claim's "for every record variable … the field mutations performed by the
method body are written back". -/
theorem C3_counterexample :
    (∃ st, execute 100 InterpState.new progQ = .ok () st ∧
      st.output = ["1"]) ∧
    (["1"] : List String) ≠ ["99"] :=
  ⟨⟨_, rfl, rfl⟩, by simp⟩

/-- The state of claim C3's example right before `p.shift(3,4)`. -/
def c3PState : InterpState :=
  { InterpState.new with
    locals := [[("p", .Struct "P" [("x", .Int 1), ("y", .Int 2)])]],
    struct_methods := [("P", [shiftFn])] }

/-- C3, amended.  The interpreter does intercept `var.method(...)` on a
record variable and runs the method on a copy of the record bound to
`self`, but write-back is hardcoded to the method name `shift`: the
record's `Int` fields `x` and `y` are incremented by the first two
arguments (the method body's own field assignments are no-ops).  For the
spec's program this coincides with the intended semantics: after
`p.shift(3,4)` the variable `p` holds `P{x=4, y=6}` and the program prints
`4` then `6`. -/
theorem C3_shift_writeback :
    (∃ st, call_mutable_struct_method 50 c3PState "p" "shift"
        [.Literal (.Int 3), .Literal (.Int 4)] = .ok .Nil st ∧
      get_variable st "p"
        = .ok (.Struct "P" [("x", .Int 4), ("y", .Int 6)])) ∧
    (∃ st, execute 100 InterpState.new progP = .ok () st ∧
      st.output = ["4", "6"]) :=
  ⟨⟨_, rfl, rfl⟩, ⟨_, rfl, rfl⟩⟩

/-- C4.  The spec says `1 + 2.0` evaluates to `Float 3.0` under both modes.
The IR constant folder does promote and fold it to `Float 3.0`, and the
semantic analyzer types the expression as `Float`, but the interpreter's
`apply_binary_op` has NO mixed `Int`/`Float` arm: the pair falls into the
catch-all and produces a type-mismatch runtime error, so the two execution
modes disagree on mixed-numeric literal arithmetic. -/
theorem C4_mixed_arithmetic_diverges :
    fold_constants (.Int 1) .Add (.Float 2) = some (.Float 3) ∧
    (∃ msg, apply_binary_op .Add (.Int 1) (.Float 2)
      = .err (.RuntimeError msg)) ∧
    (∀ v, apply_binary_op .Add (.Int 1) (.Float 2) ≠ .ok v) := by
  refine ⟨?_, ⟨_, rfl⟩, fun v h => ?_⟩
  · show some (ChifValue.Float (((1 : Int) : F64) + 2)) = some (.Float 3)
    norm_num
  · simp [apply_binary_op] at h

/-- A one-scope interpreter state binding the list variable `l` to `xs`. -/
def listVarState (xs : List ChifValue) : InterpState :=
  { InterpState.new with locals := [[("l", ChifValue.List xs)]] }

/-- C5, counterexample.  An out-of-range `l.del(5)` on the one-element list
produces a `RuntimeError` with an out-of-bounds message, NOT the
`IndexOutOfBounds` variant the claim names (that variant is produced only by
read indexing in `get_index`). -/
theorem C5_counterexample :
    (call_mutable_method 10 (listVarState [.Int 1]) "l" "del"
        [.Literal (.Int 5)]
      = .err (.RuntimeError "Index 5 out of bounds for list of length 1")
          (listVarState [.Int 1])) ∧
    ¬∃ idx st, call_mutable_method 10 (listVarState [.Int 1]) "l" "del"
        [.Literal (.Int 5)]
      = .err (.IndexOutOfBounds idx) st := by
  have h1 : call_mutable_method 10 (listVarState [.Int 1]) "l" "del"
      [.Literal (.Int 5)]
    = .err (.RuntimeError "Index 5 out of bounds for list of length 1")
        (listVarState [.Int 1]) := rfl
  refine ⟨h1, ?_⟩
  rintro ⟨idx, st, h⟩
  rw [h1] at h
  simp at h

/-- C5, amended.  The interpreted list methods on a named list variable
mutate it in place: `add` appends (length grows by exactly one); `addAt`
inserts at every position `0 ≤ i ≤ len`; `del` removes at every position
`0 ≤ i < len`; any index outside these ranges produces a `RuntimeError`
carrying an out-of-bounds message (rather than the `IndexOutOfBounds`
variant). -/
theorem C5_list_mutation (n : Nat) (xs : List ChifValue) (v i : Int) :
    (call_mutable_method (n + 2) (listVarState xs) "l" "add"
        [.Literal (.Int v)]
      = .ok .Nil (listVarState (xs ++ [.Int v]))) ∧
    (xs ++ [ChifValue.Int v]).length = xs.length + 1 ∧
    (0 ≤ i → i.toNat ≤ xs.length →
      call_mutable_method (n + 2) (listVarState xs) "l" "addAt"
          [.Literal (.Int v), .Literal (.Int i)]
        = .ok .Nil (listVarState (list_insert_at xs i.toNat (.Int v)))) ∧
    (¬(0 ≤ i ∧ i.toNat ≤ xs.length) →
      call_mutable_method (n + 2) (listVarState xs) "l" "addAt"
          [.Literal (.Int v), .Literal (.Int i)]
        = .err (.RuntimeError ("Index " ++ toString i
            ++ " out of bounds for list of length " ++ toString xs.length))
          (listVarState xs)) ∧
    (0 ≤ i → i.toNat < xs.length →
      call_mutable_method (n + 2) (listVarState xs) "l" "del"
          [.Literal (.Int i)]
        = .ok .Nil (listVarState (list_remove_at xs i.toNat))) ∧
    (¬(0 ≤ i ∧ i.toNat < xs.length) →
      call_mutable_method (n + 2) (listVarState xs) "l" "del"
          [.Literal (.Int i)]
        = .err (.RuntimeError ("Index " ++ toString i
            ++ " out of bounds for list of length " ++ toString xs.length))
          (listVarState xs)) := by
  refine ⟨rfl, by simp, fun h1 h2 => ?_, fun h => ?_, fun h1 h2 => ?_,
    fun h => ?_⟩
  · show (if i ≥ 0 ∧ i.toNat ≤ xs.length then
        Step.ok ChifValue.Nil (set_variable (listVarState xs) "l"
          (.List (list_insert_at xs i.toNat (.Int v))))
      else Step.err (.RuntimeError ("Index " ++ toString i
          ++ " out of bounds for list of length " ++ toString xs.length))
        (listVarState xs)) = _
    rw [if_pos ⟨h1, h2⟩]
    rfl
  · show (if i ≥ 0 ∧ i.toNat ≤ xs.length then
        Step.ok ChifValue.Nil (set_variable (listVarState xs) "l"
          (.List (list_insert_at xs i.toNat (.Int v))))
      else Step.err (.RuntimeError ("Index " ++ toString i
          ++ " out of bounds for list of length " ++ toString xs.length))
        (listVarState xs)) = _
    rw [if_neg h]
  · show (if i ≥ 0 ∧ i.toNat < xs.length then
        Step.ok ChifValue.Nil (set_variable (listVarState xs) "l"
          (.List (list_remove_at xs i.toNat)))
      else Step.err (.RuntimeError ("Index " ++ toString i
          ++ " out of bounds for list of length " ++ toString xs.length))
        (listVarState xs)) = _
    rw [if_pos ⟨h1, h2⟩]
    rfl
  · show (if i ≥ 0 ∧ i.toNat < xs.length then
        Step.ok ChifValue.Nil (set_variable (listVarState xs) "l"
          (.List (list_remove_at xs i.toNat)))
      else Step.err (.RuntimeError ("Index " ++ toString i
          ++ " out of bounds for list of length " ++ toString xs.length))
        (listVarState xs)) = _
    rw [if_neg h]

/-- Witness for C5 at the two-element list `[1, 2]`, `v = 9`, `i = 1`. -/
theorem C5_list_mutation_witness :
    (0 : Int) ≤ 1 ∧ (1 : Int).toNat ≤ [ChifValue.Int 1, .Int 2].length ∧
    call_mutable_method 2 (listVarState [.Int 1, .Int 2]) "l" "addAt"
        [.Literal (.Int 9), .Literal (.Int 1)]
      = .ok .Nil (listVarState
          (list_insert_at [.Int 1, .Int 2] (1 : Int).toNat (.Int 9))) :=
  ⟨by norm_num, by norm_num,
    ((C5_list_mutation 0 [.Int 1, .Int 2] 9 1).2.2.1 (by norm_num)
      (by norm_num))⟩

/-- Spec-side predicate for the amended C6: the character list contains no
two consecutive `}` characters. -/
def no_double_rbrace : List Char → Bool
  | [] => true
  | [_] => true
  | a :: b :: rest => (!(a = '}' && b = '}')) && no_double_rbrace (b :: rest)

/-- `no_double_rbrace` is preserved by dropping the head character. -/
theorem no_double_rbrace_tail {c : Char} {rest : List Char}
    (h : no_double_rbrace (c :: rest) = true) :
    no_double_rbrace rest = true := by
  cases rest with
  | nil => rfl
  | cons b bs =>
      simp only [no_double_rbrace, Bool.and_eq_true] at h
      exact h.2

/-- On a character list containing no `{` and no `}}`, the interpolation
scan is the identity (helper for C6). -/
theorem interp_chars_id (chars : List Char) :
    ∀ (fuel : Nat) (st : InterpState), '{' ∉ chars →
    no_double_rbrace chars = true → chars.length < fuel →
    interp_chars fuel st chars = .ok (String.mk chars) st := by
  induction chars with
  | nil =>
      intro fuel st _ _ hf
      match fuel, hf with
      | fuel + 1, _ => rfl
  | cons c rest ih =>
      intro fuel st h1 h2 hf
      match fuel, hf with
      | fuel + 1, hf =>
        have hc : c ≠ '{' := by
          intro hc; exact h1 (hc ▸ List.mem_cons_self c rest)
        have h1r : '{' ∉ rest := fun hm => h1 (List.mem_cons_of_mem c hm)
        have hfr : rest.length < fuel := by simp at hf; omega
        have h2r : no_double_rbrace rest = true := no_double_rbrace_tail h2
        rw [interp_chars.eq_def]
        split
        · rename_i heq; exact absurd heq (by omega)
        · rename_i stx n1 st1 cs1 fuel2 heq
          injection heq with hfe
          subst hfe
          split
          · rename_i heq; exact absurd heq (by simp)
          · rename_i r heq
            injection heq with hceq
            exact absurd hceq hc
          · rename_i r2 heq
            injection heq with hceq hreq
            rw [hceq, hreq] at h2
            simp [no_double_rbrace] at h2
          · rename_i cg rg ncg nrg heq
            injection heq with hceq hreq
            subst hceq; subst hreq
            rw [ih fuel stx h1r h2r hfr]
            rfl

/-- A character run without `}` has no placeholder terminator (helper for
C6's unclosed-brace conjunct). -/
theorem split_placeholder_none {rest : List Char} (h : '}' ∉ rest) :
    split_placeholder rest = none := by
  induction rest with
  | nil => rfl
  | cons c cs ih =>
      have hc : c ≠ '}' := by
        intro hc; exact h (hc ▸ List.mem_cons_self c cs)
      have hcs : '}' ∉ cs := fun hm => h (List.mem_cons_of_mem c hm)
      rw [split_placeholder.eq_def]
      split
      · rfl
      · rename_i r heq
        injection heq with hceq
        exact absurd hceq hc
      · rename_i x1 cg rg ncg heq
        injection heq with hceq hreq
        subst hreq
        rw [ih hcs]

/-- An unterminated placeholder (an opening `{` not doubled and never
closed) is a runtime error (helper for C6). -/
theorem interp_chars_unclosed (fuel : Nat) (st : InterpState)
    (rest : List Char) (hsp : split_placeholder rest = none)
    (hshape : rest = [] ∨ ∃ c r, rest = c :: r ∧ c ≠ '{') :
    interp_chars (fuel + 1) st ('{' :: rest)
      = .err (.RuntimeError "Unclosed interpolation bracket") st := by
  rw [interp_chars.eq_def]
  split
  · rename_i heq; exact absurd heq (by omega)
  · rename_i stx n1 st1 cs1 fuel2 heq
    injection heq with hfe
    subst hfe
    split
    · rename_i heq; exact absurd heq (by simp)
    · rename_i r heq
      injection heq with hceq hreq
      subst hreq
      split
      · rcases hshape with hnil | ⟨c, r2, hcr, hcne⟩
        · exact absurd hnil (by simp)
        · rename_i rest2
          injection hcr with hce
          exact absurd hce.symm hcne
      · rw [hsp]
    · rename_i r2 heq
      injection heq with hceq
      exact absurd hceq (by decide)
    · rename_i cg rg ncg nrg heq
      injection heq with hceq hreq
      exact absurd hceq.symm ncg

/-- C6, counterexample.  The claim says every string with no `{` is returned
unchanged, and also that every `}}` produces one literal brace — but those
conflict: the input consisting of two closing braces contains no `{` and is
nevertheless collapsed to a single brace by the interpolation scan. -/
theorem C6_counterexample :
    interpolate_string 10 InterpState.new "\x7d\x7d"
      = .ok "\x7d" InterpState.new ∧
    ("\x7d" : String) ≠ "\x7d\x7d" :=
  ⟨rfl, by decide⟩

/-- C6, amended.  String interpolation in the interpreter satisfies: a
string containing no `{` AND no `}}` is returned unchanged (`}}` collapses
to `}` even without any `{`); `{{` and `}}` produce single literal braces;
an unclosed `{` is a runtime error (shown both in general and on `"{abc"`);
and a placeholder whose evaluation fails is left verbatim in the output
(shown on `"{x}"` with no variable `x` in scope), while a placeholder whose
evaluation succeeds is replaced by the value (the spec's `"{p.x}"`
example). -/
theorem C6_interpolation (n : Nat) (st : InterpState) (s : String)
    (rest : List Char) :
    ('{' ∉ s.data → no_double_rbrace s.data = true → s.data.length < n →
      interpolate_string (n + 1) st s = .ok s st) ∧
    interpolate_string 10 InterpState.new "{{x}}"
      = .ok "\x7bx\x7d" InterpState.new ∧
    interpolate_string 10 InterpState.new "a\x7b\x7bb"
      = .ok "a\x7bb" InterpState.new ∧
    (split_placeholder rest = none →
      (rest = [] ∨ ∃ c r, rest = c :: r ∧ c ≠ '{') →
      interp_chars (n + 1) st ('{' :: rest)
        = .err (.RuntimeError "Unclosed interpolation bracket") st) ∧
    interpolate_string 10 InterpState.new "\x7babc"
      = .err (.RuntimeError "Unclosed interpolation bracket")
          InterpState.new ∧
    interpolate_string 10 InterpState.new "{x}"
      = .ok "\x7bx\x7d" InterpState.new ∧
    interpolate_string 10
        { InterpState.new with
          locals := [[("p", .Struct "Point" [("x", .Int 7), ("y", .Int 0)])]] }
        "{p.x}"
      = .ok "7"
        { InterpState.new with
          locals := [[("p", .Struct "Point" [("x", .Int 7), ("y", .Int 0)])]] } := by
  refine ⟨fun h1 h2 h3 => ?_, rfl, rfl, fun hsp hshape => ?_, rfl, rfl, rfl⟩
  · show interp_chars n st s.data = _
    rw [interp_chars_id s.data n st h1 h2 h3]
  · exact interp_chars_unclosed n st rest hsp hshape

/-- Witness for C6 at `s = "abc"`, `n = 10`, `rest = "abc".data`. -/
theorem C6_interpolation_witness :
    ('{' ∉ ("abc" : String).data ∧
      no_double_rbrace ("abc" : String).data = true ∧
      ("abc" : String).data.length < 10 ∧
      interpolate_string 11 InterpState.new "abc"
        = .ok "abc" InterpState.new) ∧
    (split_placeholder ("abc" : String).data = none ∧
      interp_chars 11 InterpState.new ('{' :: ("abc" : String).data)
        = .err (.RuntimeError "Unclosed interpolation bracket")
            InterpState.new) :=
  ⟨⟨by decide, by decide, by decide,
    (C6_interpolation 10 InterpState.new "abc" ("abc" : String).data).1
      (by decide) (by decide) (by decide)⟩,
   ⟨by decide,
    (C6_interpolation 10 InterpState.new "abc"
        ("abc" : String).data).2.2.2.1 (by decide)
      (Or.inr ⟨'a', ['b', 'c'], rfl, by decide⟩)⟩⟩

/-- `fn r7() int { ret 7; }`. -/
def retSevenFn : Function :=
  { name := "r7", params := [], return_type := some .Int,
    body := .mk [.Return (some (.Literal (.Int 7)))], is_main := false }

/-- One-scope state with `x = 1` for the continue-loop example. -/
def c7ContState : InterpState :=
  { InterpState.new with locals := [[("x", ChifValue.Int 1)]] }

/-- `while (x != 0) { x = 0; continue; }`. -/
def c7WhileContinue : Statement :=
  .While (.mk
    (.Binary (.mk (.Identifier "x") .NotEqual (.Literal (.Int 0))))
    (.mk [.Assignment (.mk (.Identifier "x") (.Literal (.Int 0))),
      .Continue]))

/-- C7.  The non-local exit signals: executing `break` yields the `Break`
variant of the interpreter's error type and `continue` yields `Continue`
(and `return` yields `Return(value)`); a `while` loop catches `Break`
(terminating normally) and `Continue` (proceeding to the next round, here
re-testing the updated condition); and `call_function` converts a
`Return(v)` escaping the body into the ordinary result `v` — its result is
never the `Return` signal, so the signal does not surface to the caller. -/
theorem C7_signal_mechanism (n : Nat) (st : InterpState) :
    execute_statement (n + 1) st .Break = .err .Break st ∧
    execute_statement (n + 1) st .Continue = .err .Continue st ∧
    execute_statement (n + 1) st (.Return none) = .err (.Return .Nil) st ∧
    execute_statement 10 st
        (.While (.mk (.Literal (.Bool true)) (.mk [.Break]))) = .ok () st ∧
    execute_statement 10 c7ContState c7WhileContinue
      = .ok () { c7ContState with locals := [[("x", ChifValue.Int 0)]] } ∧
    (∀ fuel func args v st2,
      call_function fuel st func args ≠ .err (.Return v) st2) ∧
    call_function 10 st retSevenFn [] = .ok (.Int 7) st := by
  refine ⟨rfl, rfl, rfl, rfl, rfl, ?_, rfl⟩
  intro fuel func args v st2 h
  match fuel with
  | 0 => exact Step.noConfusion h
  | fuel + 1 =>
      rw [call_function.eq_def] at h
      split at h
      · exact Step.noConfusion h
      · split at h
        · simp at h
        · simp only [] at h
          split at h <;> simp_all

/-- The statement loop of `block_always_returns`, as an existential over
membership. -/
theorem stmts_any_returns_iff (stmts : List Statement) :
    stmts_any_returns stmts = true ↔
      ∃ s ∈ stmts, statement_always_returns s = true := by
  induction stmts with
  | nil => simp [stmts_any_returns]
  | cons s rest ih => simp [stmts_any_returns, Bool.or_eq_true, ih]

/-- The case loop of the `Switch` arm of `statement_always_returns`, as a
universal over membership. -/
theorem cases_always_return_iff (cs : List SwitchCase) :
    cases_always_return cs = true ↔
      ∀ c ∈ cs, block_always_returns c.body = true := by
  induction cs with
  | nil => simp [cases_always_return]
  | cons c rest ih =>
      cases c with
      | mk v b =>
          simp [cases_always_return, Bool.and_eq_true, ih, SwitchCase.body]

/-- C8.  The analyzer's always-returns predicate: a block always returns iff
some statement in it always returns; a `return` always returns; an `if`
always returns iff it has an `else` and both blocks always return; a
`switch` always returns iff it has a default and every case body and the
default always return; no other statement form always returns.  Enforcement:
a non-`main` function with a declared non-`Nil` return type whose body does
not always return fails the coverage check (and `check_item_types` never
succeeds on it), while `main` is exempt and a function whose body always
returns passes the check. -/
theorem C8_always_returns :
    (∀ stmts : List Statement,
      block_always_returns (.mk stmts) = true ↔
        ∃ s ∈ stmts, statement_always_returns s = true) ∧
    (∀ e, statement_always_returns (.Return e) = true) ∧
    (∀ c tb eb,
      statement_always_returns (.If (.mk c tb (some eb))) = true ↔
        block_always_returns tb = true ∧ block_always_returns eb = true) ∧
    (∀ c tb, statement_always_returns (.If (.mk c tb none)) = false) ∧
    (∀ e cs d,
      statement_always_returns (.Switch (.mk e cs (some d))) = true ↔
        (∀ c ∈ cs, block_always_returns (SwitchCase.body c) = true) ∧
          block_always_returns d = true) ∧
    (∀ e cs, statement_always_returns (.Switch (.mk e cs none)) = false) ∧
    (∀ d, statement_always_returns (.VarDecl d) = false) ∧
    (∀ a, statement_always_returns (.Assignment a) = false) ∧
    (∀ e, statement_always_returns (.Expression e) = false) ∧
    (∀ f, statement_always_returns (.For f) = false) ∧
    (∀ w, statement_always_returns (.While w) = false) ∧
    statement_always_returns .Break = false ∧
    statement_always_returns .Continue = false ∧
    (∀ func rt, func.return_type = some rt → rt ≠ ChifType.Nil →
      func.is_main = false → block_always_returns func.body = false →
      return_coverage_check func =
        .error (.InvalidOperation SourceLocation.unknown
          ("Function " ++ func.name ++ " must return a value of type "
            ++ chifTypeDebug rt ++ " in all code paths"))) ∧
    (∀ fuel a u a2 func rt, func.return_type = some rt →
      rt ≠ ChifType.Nil → func.is_main = false →
      block_always_returns func.body = false →
      check_item_types fuel a (.Function func) ≠ .ok u a2) ∧
    (∀ func, func.is_main = true → return_coverage_check func = .ok ()) ∧
    (∀ func, block_always_returns func.body = true →
      return_coverage_check func = .ok ()) := by
  refine ⟨fun stmts => ?_, fun e => rfl, fun c tb eb => ?_, fun c tb => rfl,
    fun e cs d => ?_, fun e cs => rfl, fun d => rfl, fun a => rfl,
    fun e => rfl, fun f => rfl, fun w => rfl, rfl, rfl,
    fun func rt h1 h2 h3 h4 => ?_, fun fuel a u a2 func rt h1 h2 h3 h4 h => ?_,
    fun func hm => ?_, fun func hb => ?_⟩
  · simpa [block_always_returns] using stmts_any_returns_iff stmts
  · simp [statement_always_returns, Bool.and_eq_true]
  · simp [statement_always_returns, Bool.and_eq_true, cases_always_return_iff]
  · simp [return_coverage_check, h1, h3, h4, beq_eq_false_iff_ne.mpr h2]
  · have hrc : return_coverage_check func =
        .error (.InvalidOperation SourceLocation.unknown
          ("Function " ++ func.name ++ " must return a value of type "
            ++ chifTypeDebug rt ++ " in all code paths")) := by
      simp [return_coverage_check, h1, h3, h4, beq_eq_false_iff_ne.mpr h2]
    match fuel with
    | 0 => exact SRes.noConfusion h
    | fuel + 1 =>
        simp only [check_item_types] at h
        split at h
        · exact SRes.noConfusion h
        · split at h
          · exact SRes.noConfusion h
          · exact SRes.noConfusion h
          · rw [hrc] at h
            exact SRes.noConfusion h
  · cases hrt : func.return_type with
    | none => simp [return_coverage_check, hrt]
    | some rt => simp [return_coverage_check, hrt, hm]
  · cases hrt : func.return_type with
    | none => simp [return_coverage_check, hrt]
    | some rt => simp [return_coverage_check, hrt, hb]

/-- C9.  The parser's expression grammar: `1 + 2 * 3` parses as
`1 + (2 * 3)`, `a == b && c` as `(a == b) && c`, `-a.b` as unary minus
applied to the field access `a.b`, and binary operators are
left-associative (`1 - 2 - 3` parses as `(1 - 2) - 3`). -/
theorem C9_parse_precedence :
    parse_expression 50
        ⟨[.IntLiteral 1, .Plus, .IntLiteral 2, .Multiply, .IntLiteral 3,
          .Eof], 0⟩
      = .ok (.Binary (.mk (.Literal (.Int 1)) .Add
          (.Binary (.mk (.Literal (.Int 2)) .Multiply (.Literal (.Int 3))))))
        ⟨[.IntLiteral 1, .Plus, .IntLiteral 2, .Multiply, .IntLiteral 3,
          .Eof], 5⟩ ∧
    parse_expression 50
        ⟨[.Identifier "a", .Equal, .Identifier "b", .And, .Identifier "c",
          .Eof], 0⟩
      = .ok (.Binary (.mk
          (.Binary (.mk (.Identifier "a") .Equal (.Identifier "b")))
          .And (.Identifier "c")))
        ⟨[.Identifier "a", .Equal, .Identifier "b", .And, .Identifier "c",
          .Eof], 5⟩ ∧
    parse_expression 50
        ⟨[.Minus, .Identifier "a", .Dot, .Identifier "b", .Eof], 0⟩
      = .ok (.Unary (.mk .Minus (.FieldAccess (.mk (.Identifier "a") "b"))))
        ⟨[.Minus, .Identifier "a", .Dot, .Identifier "b", .Eof], 4⟩ ∧
    parse_expression 50
        ⟨[.IntLiteral 1, .Minus, .IntLiteral 2, .Minus, .IntLiteral 3,
          .Eof], 0⟩
      = .ok (.Binary (.mk
          (.Binary (.mk (.Literal (.Int 1)) .Subtract (.Literal (.Int 2))))
          .Subtract (.Literal (.Int 3))))
        ⟨[.IntLiteral 1, .Minus, .IntLiteral 2, .Minus, .IntLiteral 3,
          .Eof], 5⟩ :=
  ⟨rfl, rfl, rfl, rfl⟩

/-- C10.  In the interpreter's integer arithmetic, only division guards the
zero divisor: `a / 0` is the division-by-zero runtime error while the
modulo branch computes the host remainder unguarded, so `a % 0` is a host
panic rather than an interpreter error; for a nonzero divisor both return
the truncated quotient/remainder. -/
theorem C10_modulo_unguarded (a b : Int) (hb : b ≠ 0) :
    apply_binary_op .Modulo (.Int a) (.Int b) = .ok (.Int (Int.tmod a b)) ∧
    apply_binary_op .Modulo (.Int a) (.Int 0)
      = .panic "attempt to calculate the remainder with a divisor of zero" ∧
    apply_binary_op .Divide (.Int a) (.Int 0)
      = .err (.RuntimeError "Division by zero") ∧
    apply_binary_op .Divide (.Int a) (.Int b) = .ok (.Int (Int.tdiv a b)) := by
  refine ⟨?_, ?_, ?_, ?_⟩
  · simp [apply_binary_op, rustRem, hb]
  · simp [apply_binary_op, rustRem]
  · simp [apply_binary_op]
  · simp [apply_binary_op, rustDiv, hb]

/-- Witness for C10 at `a = 7`, `b = 3`. -/
theorem C10_modulo_unguarded_witness :
    (3 : Int) ≠ 0 ∧
    (apply_binary_op .Modulo (.Int 7) (.Int 3)
        = .ok (.Int (Int.tmod 7 3)) ∧
      apply_binary_op .Modulo (.Int 7) (.Int 0)
        = .panic "attempt to calculate the remainder with a divisor of zero" ∧
      apply_binary_op .Divide (.Int 7) (.Int 0)
        = .err (.RuntimeError "Division by zero") ∧
      apply_binary_op .Divide (.Int 7) (.Int 3)
        = .ok (.Int (Int.tdiv 7 3))) :=
  ⟨by norm_num, C10_modulo_unguarded 7 3 (by norm_num)⟩

end Rono
